import Mathlib

/-! # A shallow embedding of the rlox tree-walking interpreter

This file embeds the core of the `rlox` Lox interpreter (scanner, parser
desugaring, resolver, environments and the tree-walking interpreter) as
executable Lean definitions, and proves properties about them.

Modelling conventions:
* Rust `f64` numbers are modelled as `ℚ`. Every claim settled here depends
  only on branch structure (which comparison/equality branch is taken), not
  on rounding, infinities or NaN, and the constants involved (`1e-8`) are
  compared exactly in both models.
* Shared mutable state (`Rc<RefCell<...>>`) is modelled as an explicit heap:
  environments, classes and instances live in stores inside the interpreter
  state and are referenced by index. `Environment::as_child_of` always
  records a previously existing parent index, so every enclosing chain in a
  reachable store is acyclic and shorter than the store; chain-walking
  functions therefore take a gas argument which callers instantiate with the
  store size.
* Possibly diverging recursion (statement execution, resolution, scanning)
  takes a fuel argument and returns `none` when the fuel runs out.
* `HashMap` is modelled as an insertion-ordered association list whose
  `insert` overwrites; membership and lookup agree with the map semantics.
* `println!`/`eprintln!` output is collected in `output`/error lists instead
  of being written to streams.
-/

namespace RLox

/-- Token kinds, from `scanner.rs` (`TokenType`). -/
inductive TokenType where
  | LeftParen
  | RightParen
  | LeftBrace
  | RightBrace
  | Comma
  | Dot
  | Minus
  | Plus
  | Semicolon
  | Slash
  | Star
  | QuestionMark
  | Colon
  | Bang
  | BangEqual
  | Equal
  | EqualEqual
  | Greater
  | GreaterEqual
  | Less
  | LessEqual
  | Identifier
  | Str
  | Number
  | And
  | Break
  | Class
  | Else
  | False
  | Fun
  | For
  | If
  | Nil
  | Or
  | Print
  | Return
  | Super
  | This
  | True
  | Var
  | While
  | Eof
deriving DecidableEq, Repr

/-- Literal payloads, from `scanner.rs` (`Literal`). `False`/`True`/`Nil` are
renamed `fls`/`tru`/`nil` to avoid Lean keywords. -/
inductive Literal where
  | number (n : ℚ)
  | str (s : String)
  | fls
  | tru
  | nil
deriving DecidableEq, Repr

/-- A scanner token, from `scanner.rs` (`Token`). The revision of
`scanner.rs` in the tree carries no monotonic id field. -/
structure Token where
  token_type : TokenType
  lexeme : String
  literal : Option Literal
  line : Int
deriving DecidableEq, Repr

/-- `error.rs` `RuntimeError`. -/
structure RuntimeError where
  token : Option Token
  message : String
deriving DecidableEq, Repr

def RuntimeError.new (token : Token) (message : String) : RuntimeError :=
  { token := some token, message := message }

def RuntimeError.with_message (message : String) : RuntimeError :=
  { token := none, message := message }

/-- `error.rs` `ResolveError`. -/
structure ResolveError where
  token : Option Token
  message : String
deriving DecidableEq, Repr

def ResolveError.new (token : Option Token) (message : String) : ResolveError :=
  { token := token, message := message }

/-- `ast.rs` `CallableType`. -/
inductive CallableType where
  | ClassMethod
  | Function
  | Lambda
  | Method
  | Property
deriving DecidableEq, Repr

mutual

/-- Expression nodes, from `ast.rs` (`Expr`). `Variable`/`This` are renamed
`varExpr`/`thisExpr` to avoid Lean keywords. -/
inductive Expr where
  | assign (name : Token) (value : Expr)
  | binary (left : Expr) (operator : Token) (right : Expr)
  | call (callee : Expr) (paren : Token) (arguments : List Expr)
  | get (object : Expr) (name : Token)
  | grouping (expression : Expr)
  | lambda (parameters : List Token) (body : List Stmt)
  | literal (value : Literal)
  | logical (left : Expr) (operator : Token) (right : Expr)
  | set (object : Expr) (name : Token) (value : Expr)
  | ternary (condition : Expr) (then_value : Expr) (else_value : Expr)
  | thisExpr (keyword : Token)
  | unary (operator : Token) (right : Expr)
  | varExpr (name : Token)
deriving BEq

/-- Statement nodes, from `ast.rs` (`Stmt`). Keyword-colliding names get a
`Stmt` suffix. -/
inductive Stmt where
  | block (statements : List Stmt)
  | breakStmt (keyword : Token)
  | classStmt (name : Token) (methods : List Stmt) (class_methods : List Stmt)
  | expression (e : Expr)
  | function (name : Token) (parameters : List Token) (body : List Stmt)
      (fn_type : CallableType)
  | ifStmt (condition : Expr) (then_branch : Stmt) (else_branch : Option Stmt)
  | print (e : Expr)
  | returnStmt (keyword : Token) (value : Option Expr)
  | var (name : Token) (initializer : Option Expr)
  | whileStmt (condition : Expr) (body : Stmt)
deriving BEq

end

/-! ## Association lists

`HashMap` is modelled as an insertion-ordered association list; `alistInsert`
overwrites an existing binding in place (`HashMap::insert`). -/

def alistGet {κ α : Type} [BEq κ] (m : List (κ × α)) (k : κ) : Option α :=
  match m with
  | [] => none
  | (k₀, v₀) :: rest => if k₀ == k then some v₀ else alistGet rest k

def alistContains {κ α : Type} [BEq κ] (m : List (κ × α)) (k : κ) : Bool :=
  (alistGet m k).isSome

def alistInsert {κ α : Type} [BEq κ] (m : List (κ × α)) (k : κ) (v : α) :
    List (κ × α) :=
  match m with
  | [] => [(k, v)]
  | (k₀, v₀) :: rest =>
      if k₀ == k then (k, v) :: rest else (k₀, v₀) :: alistInsert rest k v

/-! ## Runtime values and heaps -/

/-- `function.rs` `LoxFunction`: the data of a user function / method /
lambda. `closure` is an index into the environment store. -/
structure LoxFunctionData where
  name : Option Token
  parameters : List Token
  body : List Stmt
  closure : Nat
  is_initializer : Bool
  fn_type : CallableType
deriving BEq

/-- The implementations of the `LoxCallable` trait reachable at runtime:
user functions (`function.rs`) and the native `clock` (`natives.rs`). -/
inductive LoxCallableObj where
  | function (f : LoxFunctionData)
  | nativeClock
deriving BEq

/-- `object.rs` `LoxObject`. `Class`/`Instance` are indices into the class
and instance stores of the interpreter state. -/
inductive LoxObject where
  | boolean (b : Bool)
  | callable (c : LoxCallableObj)
  | classObj (c : Nat)
  | instanceObj (i : Nat)
  | nil
  | number (n : ℚ)
  | str (s : String)
  | undefined
deriving BEq

/-- `object.rs` `LoxObject::from_literal`. -/
def LoxObject.from_literal : Literal → LoxObject
  | .number n => .number n
  | .str s => .str s
  | .fls => .boolean false
  | .tru => .boolean true
  | .nil => .nil

/-- `object.rs` `LoxObject::is_truthy`. -/
def LoxObject.is_truthy : LoxObject → Bool
  | .nil => false
  | .boolean b => b
  | _ => true

/-- One environment record (`environment.rs` `EnvironmentData`): an optional
enclosing environment (by store index) and a name-to-value map. -/
structure Frame where
  enclosing : Option Nat
  values : List (String × LoxObject)
deriving BEq

/-- `class.rs` `ClassData`. The interpreter revision in the tree never
constructs a superclass, but the field exists in `class.rs`. -/
structure LoxClassData where
  name : String
  methods : List (String × LoxFunctionData)
  class_fields : List (String × LoxObject)
  class_methods : List (String × LoxFunctionData)
  super_class : Option Nat
deriving BEq

/-- `class.rs` `LoxInstance`: class reference plus mutable field map. -/
structure LoxInstanceData where
  class_data : Nat
  fields : List (String × LoxObject)
deriving BEq

/-- The interpreter state: the three fields of `interpreter.rs`
`Interpreter` (`globals`, `environment`, `locals`) plus the explicit heaps
standing for the `Rc<RefCell<...>>` stores and the collected `print`
output. -/
structure Interpreter where
  envs : List Frame
  classes : List LoxClassData
  instances : List LoxInstanceData
  globals : Nat
  environment : Nat
  locals : List (Expr × Nat)
  output : List String
deriving BEq

/-- `interpreter.rs` `Interpreter::new`: globals with the native `clock`,
`environment` aliasing `globals`, empty resolution table. -/
def Interpreter.new : Interpreter :=
  { envs := [{ enclosing := none,
               values := [("clock", LoxObject.callable .nativeClock)] }]
    classes := []
    instances := []
    globals := 0
    environment := 0
    locals := []
    output := [] }

/-! ## Environment operations (`environment.rs`)

Each operation takes the environment store and an index. Chain-walking
operations (`get`, `assign`) take a gas bound; callers pass the store size,
which bounds every acyclic enclosing chain. -/

namespace Environment

/-- `Environment::new`. -/
def new (envs : List Frame) : Nat × List Frame :=
  (envs.length, envs ++ [{ enclosing := none, values := [] }])

/-- `Environment::as_child_of`. -/
def as_child_of (parent : Nat) (envs : List Frame) : Nat × List Frame :=
  (envs.length, envs ++ [{ enclosing := some parent, values := [] }])

/-- `Environment::define` (insert into the current scope, overwriting). -/
def define (envs : List Frame) (ref : Nat) (name : String)
    (value : LoxObject) : List Frame :=
  match envs[ref]? with
  | some fr => envs.set ref { fr with values := alistInsert fr.values name value }
  | none => envs

/-- `Environment::get`: current scope, else recurse to the enclosing
environment, else runtime error. A dangling reference or exhausted gas is
unreachable from interpreter-constructed states. -/
def get (gas : Nat) (envs : List Frame) (ref : Nat) (name : Token) :
    Except RuntimeError LoxObject :=
  match gas with
  | 0 => .error (RuntimeError.with_message "unreachable: environment chain exhausted")
  | gas + 1 =>
    match envs[ref]? with
    | none => .error (RuntimeError.with_message "unreachable: dangling environment")
    | some fr =>
      match alistGet fr.values name.lexeme with
      | some v => .ok v
      | none =>
        match fr.enclosing with
        | some parent => get gas envs parent name
        | none =>
            .error (RuntimeError.new name
              ("Undefined variable \"" ++ name.lexeme ++ "\"."))

/-- `Environment::assign`: overwrite in the scope that holds the name, else
runtime error. -/
def assign (gas : Nat) (envs : List Frame) (ref : Nat) (name : Token)
    (value : LoxObject) : Except RuntimeError (List Frame) :=
  match gas with
  | 0 => .error (RuntimeError.with_message "unreachable: environment chain exhausted")
  | gas + 1 =>
    match envs[ref]? with
    | none => .error (RuntimeError.with_message "unreachable: dangling environment")
    | some fr =>
      if alistContains fr.values name.lexeme then
        .ok (envs.set ref { fr with values := alistInsert fr.values name.lexeme value })
      else
        match fr.enclosing with
        | some parent => assign gas envs parent name value
        | none =>
            .error (RuntimeError.new name
              ("Undefined variable \"" ++ name.lexeme ++ "\"."))

/-- `Environment::ancestor`: walk `distance` enclosing links. -/
def ancestor (envs : List Frame) (ref : Nat) : Nat → Option Nat
  | 0 => some ref
  | d + 1 =>
    match envs[ref]? with
    | some fr =>
      match fr.enclosing with
      | some parent => ancestor envs parent d
      | none => none
    | none => none

/-- `Environment::get_at`. -/
def get_at (envs : List Frame) (ref : Nat) (distance : Nat) (name : String) :
    Except RuntimeError LoxObject :=
  match ancestor envs ref distance with
  | some aref =>
    match envs[aref]? with
    | some fr =>
      match alistGet fr.values name with
      | some v => .ok v
      | none =>
          .error (RuntimeError.with_message
            ("Environment::get_at - Undefined variable \"" ++ name ++
             "\" at distance: " ++ toString distance ++ "."))
    | none => .error (RuntimeError.with_message "unreachable: dangling environment")
  | none =>
      .error (RuntimeError.with_message
        ("No ancestor at distance \"" ++ toString distance ++ "\"."))

/-- `Environment::assign_at`. -/
def assign_at (envs : List Frame) (ref : Nat) (distance : Nat) (name : Token)
    (value : LoxObject) : Except RuntimeError (List Frame) :=
  match ancestor envs ref distance with
  | some aref =>
    match envs[aref]? with
    | some fr =>
        .ok (envs.set aref { fr with values := alistInsert fr.values name.lexeme value })
    | none => .error (RuntimeError.with_message "unreachable: dangling environment")
  | none =>
      .error (RuntimeError.new name
        ("No ancestor environment at distance \"" ++ toString distance ++ "\"."))

end Environment

/-! ## Interpreter status and pure helpers (`interpreter.rs`) -/

/-- `interpreter.rs` `InterpretResultStatus`. `Break`/`Return` are renamed
`brk`/`ret` to avoid Lean keywords. -/
inductive InterpretResultStatus where
  | error (e : RuntimeError)
  | brk
  | ret (v : Option LoxObject)
deriving BEq

/-- `Interpreter::_process_error`: a runtime error passes through; a `Break`
or `Return` signal reaching the interpreter root becomes an internal
runtime error. -/
def Interpreter._process_error : InterpretResultStatus → RuntimeError
  | .error e => e
  | .brk =>
      RuntimeError.with_message
        "A \"break\" statement trickled all the way up to root. Something is horribly wrong."
  | .ret _ =>
      RuntimeError.with_message
        "A \"return\" statement trickled all the way up to root. Something is horribly wrong."

/-! ### Arithmetic on numbers

`f64` numbers are modelled as `ℚ`. The standard `Rat` arithmetic goes
through the `@[irreducible]` `Rat.inv` / compiler-implemented primitives and
does not reduce inside the kernel, so the four operations (and `abs`/`neg`)
are written out via `mkRat`; the `f64*_eq` lemmas below prove each equal to
the corresponding `ℚ` operation. -/

/-- Addition (`l + r`), equal to `· + ·` on `ℚ` by `f64add_eq`. -/
def f64add (a b : ℚ) : ℚ :=
  mkRat (a.num * b.den + b.num * a.den) (a.den * b.den)

/-- Subtraction (`l - r`), equal to `· - ·` on `ℚ` by `f64sub_eq`. -/
def f64sub (a b : ℚ) : ℚ :=
  mkRat (a.num * b.den - b.num * a.den) (a.den * b.den)

/-- Multiplication (`l * r`), equal to `· * ·` on `ℚ` by `f64mul_eq`. -/
def f64mul (a b : ℚ) : ℚ :=
  mkRat (a.num * b.num) (a.den * b.den)

/-- Negation (`-n`), equal to `-·` on `ℚ` by `f64neg_eq`. -/
def f64neg (a : ℚ) : ℚ :=
  mkRat (-a.num) a.den

/-- Division (`l / r`), equal to `· / ·` on `ℚ` for a non-zero divisor by
`f64div_eq` (the interpreter only divides after its zero-divisor guard). -/
def f64div (a b : ℚ) : ℚ :=
  if (a.den : ℤ) * b.num < 0 then
    mkRat (-(a.num * b.den)) (-((a.den : ℤ) * b.num)).toNat
  else
    mkRat (a.num * b.den) ((a.den : ℤ) * b.num).toNat

/-- `f64::abs`, equal to Mathlib's `|·|` by `f64abs_eq_abs`. -/
def f64abs (q : ℚ) : ℚ :=
  if q < 0 then f64neg q else q

/-- The operator dispatch of `interpreter.rs` `visit_binary_expr`, after both
operands have been evaluated. Numeric formatting in string concatenation is
abstracted by `toString` on `ℚ`. -/
def Interpreter.binary_op (operator : Token) (left right : LoxObject) :
    Except RuntimeError LoxObject :=
  match operator.token_type with
  | .Minus =>
    match left with
    | .number l =>
      match right with
      | .number r => .ok (.number (f64sub l r))
      | _ => .error (RuntimeError.new operator "Right operand not a number.")
    | _ => .error (RuntimeError.new operator "Left operand not a number.")
  | .Slash =>
    match left with
    | .number l =>
      match right with
      | .number r =>
        if f64abs r > mkRat 1 100000000 then
          .ok (.number (f64div l r))
        else
          .error (RuntimeError.new operator "Attempt to divide by zero.")
      | _ => .error (RuntimeError.new operator "Right operand not a number.")
    | _ => .error (RuntimeError.new operator "Left operand not a number.")
  | .Star =>
    match left with
    | .number l =>
      match right with
      | .number r => .ok (.number (f64mul l r))
      | _ => .error (RuntimeError.new operator "Right operand not a number.")
    | _ => .error (RuntimeError.new operator "Left operand not a number.")
  | .Plus =>
    match left with
    | .number l =>
      match right with
      | .number r => .ok (.number (f64add l r))
      | _ => .error (RuntimeError.new operator "Right operand not a number.")
    | .str l =>
      match right with
      | .str r => .ok (.str (l ++ r))
      | .number r => .ok (.str (l ++ toString r))
      | .boolean r => .ok (.str (l ++ (if r then "true" else "false")))
      | .nil => .ok (.str (l ++ "nil"))
      | _ => .error (RuntimeError.new operator "Right operand not a string")
    | _ => .error (RuntimeError.new operator "Left operand not a number or string.")
  | .EqualEqual =>
    match left with
    | .number l =>
      match right with
      | .number r => .ok (.boolean (decide (l = r)))
      | _ => .error (RuntimeError.new operator "Right operand not a number.")
    | .str l =>
      match right with
      | .str r => .ok (.boolean (decide (l = r)))
      | _ => .error (RuntimeError.new operator "Right operand not a string")
    | _ => .error (RuntimeError.new operator "Left operand not a number or string.")
  | .Less =>
    match left with
    | .number l =>
      match right with
      | .number r => .ok (.boolean (decide (l < r)))
      | _ => .error (RuntimeError.new operator "Right operand not a number.")
    | _ => .error (RuntimeError.new operator "Left operand not a number.")
  | .LessEqual =>
    match left with
    | .number l =>
      match right with
      | .number r => .ok (.boolean (decide (l ≤ r)))
      | _ => .error (RuntimeError.new operator "Right operand not a number.")
    | _ => .error (RuntimeError.new operator "Left operand not a number.")
  | .Greater =>
    match left with
    | .number l =>
      match right with
      | .number r => .ok (.boolean (decide (l > r)))
      | _ => .error (RuntimeError.new operator "Right operand not a number.")
    | _ => .error (RuntimeError.new operator "Left operand not a number.")
  | .GreaterEqual =>
    match left with
    | .number l =>
      match right with
      | .number r => .ok (.boolean (decide (l ≥ r)))
      | _ => .error (RuntimeError.new operator "Right operand not a number.")
    | _ => .error (RuntimeError.new operator "Left operand not a number.")
  | _ => .error (RuntimeError.new operator "Unrecognized binary operator.")

/-- Arity of a callable object (`LoxCallable::arity` for user functions and
the native clock). -/
def LoxCallableObj.arity : LoxCallableObj → Nat
  | .function f => f.parameters.length
  | .nativeClock => 0

/-- `LoxCallable::is_property`. -/
def LoxCallableObj.is_property : LoxCallableObj → Bool
  | .function f => f.fn_type == .Property
  | .nativeClock => false

/-- `class.rs` `ClassData::find_method` (with superclass fallback; `gas`
bounds the superclass chain, which is always `None` in states built by this
interpreter revision). -/
def findMethod (gas : Nat) (classes : List LoxClassData) (cref : Nat)
    (name : String) : Option LoxFunctionData :=
  match gas with
  | 0 => none
  | gas + 1 =>
    match classes[cref]? with
    | none => none
    | some cd =>
      match alistGet cd.methods name with
      | some f => some f
      | none =>
        match cd.super_class with
        | some sup => findMethod gas classes sup name
        | none => none

/-- `class.rs` `ClassData::find_class_method`. -/
def findClassMethod (gas : Nat) (classes : List LoxClassData) (cref : Nat)
    (name : String) : Option LoxFunctionData :=
  match gas with
  | 0 => none
  | gas + 1 =>
    match classes[cref]? with
    | none => none
    | some cd =>
      match alistGet cd.class_methods name with
      | some f => some f
      | none =>
        match cd.super_class with
        | some sup => findClassMethod gas classes sup name
        | none => none

/-- `class.rs` `LoxClass::arity`: the arity of `init` if it exists, else 0. -/
def classArity (s : Interpreter) (cref : Nat) : Nat :=
  match findMethod s.classes.length s.classes cref "init" with
  | some f => f.parameters.length
  | none => 0

/-- `function.rs` `LoxFunction::bind`: a child environment of the method's
closure with `this` bound to the instance. (The lambda panic path is not
modelled; every call site binds a named method.) -/
def LoxFunctionData.bind (f : LoxFunctionData) (inst : Nat) (s : Interpreter) :
    LoxFunctionData × Interpreter :=
  let (envRef, envs₁) := Environment.as_child_of f.closure s.envs
  let envs₂ := Environment.define envs₁ envRef "this" (.instanceObj inst)
  ({ f with closure := envRef }, { s with envs := envs₂ })

/-- `class.rs` `LoxInstance::get`: field, else bound method, else runtime
error. Binding allocates an environment, so the state is threaded. -/
def instanceGet (s : Interpreter) (iref : Nat) (name : Token) :
    Except RuntimeError LoxObject × Interpreter :=
  match s.instances[iref]? with
  | none => (.error (RuntimeError.with_message "unreachable: dangling instance"), s)
  | some inst =>
    match alistGet inst.fields name.lexeme with
    | some v => (.ok v, s)
    | none =>
      match findMethod s.classes.length s.classes inst.class_data name.lexeme with
      | some m =>
        let (bound, s') := m.bind iref s
        (.ok (.callable (.function bound)), s')
      | none =>
        (.error (RuntimeError.new name
          ("Undefined property \"" ++ name.lexeme ++ "\".")), s)

/-- `class.rs` `LoxInstance::set`. -/
def instanceSet (s : Interpreter) (iref : Nat) (name : Token)
    (value : LoxObject) : Interpreter :=
  match s.instances[iref]? with
  | none => s
  | some inst =>
      let inst' := { inst with fields := alistInsert inst.fields name.lexeme value }
      { s with instances := s.instances.set iref inst' }

/-- `class.rs` `LoxClass::get`: class field, else class method, else runtime
error. -/
def classGet (s : Interpreter) (cref : Nat) (name : Token) :
    Except RuntimeError LoxObject :=
  match s.classes[cref]? with
  | none => .error (RuntimeError.with_message "unreachable: dangling class")
  | some cd =>
    match alistGet cd.class_fields name.lexeme with
    | some v => .ok v
    | none =>
      match findClassMethod s.classes.length s.classes cref name.lexeme with
      | some m => .ok (.callable (.function m))
      | none =>
          .error (RuntimeError.new name
            ("Undefined variable \"" ++ name.lexeme ++ "\"."))

/-- `class.rs` `LoxClass::set`. -/
def classSet (s : Interpreter) (cref : Nat) (name : Token)
    (value : LoxObject) : Interpreter :=
  match s.classes[cref]? with
  | none => s
  | some cd =>
      let cd' := { cd with class_fields := alistInsert cd.class_fields name.lexeme value }
      { s with classes := s.classes.set cref cd' }

/-- The `Display` form of a value (`object.rs`); numeric formatting is
abstracted by `toString` on `ℚ`. -/
def LoxObject.display (s : Interpreter) : LoxObject → String
  | .boolean b => if b then "true" else "false"
  | .callable c => "<callable arity " ++ toString c.arity ++ ">"
  | .classObj cref =>
    match s.classes[cref]? with
    | some cd => cd.name
    | none => "unreachable: dangling class"
  | .instanceObj iref =>
    match s.instances[iref]? with
    | some inst =>
      match s.classes[inst.class_data]? with
      | some cd => cd.name ++ " instance"
      | none => "unreachable: dangling class"
    | none => "unreachable: dangling instance"
  | .nil => "nil"
  | .number n => toString n
  | .str v => v
  | .undefined => "<undefined>"

/-- `Interpreter::look_up_variable`: use the resolver distance when the
side-table has one for this expression node, else read the global scope. -/
def Interpreter.look_up_variable (s : Interpreter) (name : Token) (expr : Expr) :
    Except RuntimeError LoxObject :=
  match alistGet s.locals expr with
  | some distance => Environment.get_at s.envs s.environment distance name.lexeme
  | none => Environment.get s.envs.length s.envs s.globals name

/-- The method-map construction loops of `visit_class_stmt`: each member must
be a `Stmt::Function`; instance methods named `init` are flagged as
initializers, class methods never are. -/
def buildMethodMap (closure : Nat) (class_name : Token) (is_instance_map : Bool)
    (stmts : List Stmt) (acc : List (String × LoxFunctionData)) :
    Except InterpretResultStatus (List (String × LoxFunctionData)) :=
  match stmts with
  | [] => .ok acc
  | m :: rest =>
    match m with
    | .function name params body fn_type =>
      let is_init := is_instance_map && (name.lexeme == "init")
      let f : LoxFunctionData :=
        { name := some name, parameters := params, body := body,
          closure := closure, is_initializer := is_init, fn_type := fn_type }
      buildMethodMap closure class_name is_instance_map rest
        (alistInsert acc name.lexeme f)
    | _ =>
        .error (.error (RuntimeError.new class_name
          "Method in class somehow not a Stmt::Function instance."))

/-- The parameter-binding loop of `LoxFunction::call`. -/
def defineParams (envs : List Frame) (ref : Nat) :
    List (Token × LoxObject) → List Frame
  | [] => envs
  | (t, v) :: rest => defineParams (Environment.define envs ref t.lexeme v) ref rest

/-- The environment set-up of `LoxFunction::call`: a child of the closure
with the parameters bound positionally to the arguments. (Call sites have
already checked the arity, so `zip` drops nothing.) -/
def LoxFunctionData.callEnv (f : LoxFunctionData) (args : List LoxObject)
    (s : Interpreter) : Nat × Interpreter :=
  let (envRef, envs₁) := Environment.as_child_of f.closure s.envs
  let envs₂ := defineParams envs₁ envRef (f.parameters.zip args)
  (envRef, { s with envs := envs₂ })

/-! ## The tree-walking interpreter (`interpreter.rs`, `function.rs`,
`class.rs`)

All functions take a fuel bound and answer `none` when it runs out. The
source distinguishes `Interpreter::_evaluate` (signals propagate) from the
wrapping `Interpreter::evaluate` (signals are converted by
`_process_error`); each call site below uses the same variant as the
source line it embeds. -/

mutual

/-- `Interpreter::_evaluate` / `ExprVisitor` impl: expression evaluation. -/
def Interpreter._evaluate :
    Nat → Expr → Interpreter →
    Option (Except InterpretResultStatus LoxObject × Interpreter)
  | 0, _, _ => none
  | fuel + 1, expr, s =>
    match expr with
    | .assign name value =>
      match Interpreter.evaluate fuel value s with
      | none => none
      | some (.error e, s₁) => some (.error (.error e), s₁)
      | some (.ok v, s₁) =>
        match alistGet s₁.locals expr with
        | some distance =>
          match Environment.assign_at s₁.envs s₁.environment distance name v with
          | .ok envs₂ => some (.ok v, { s₁ with envs := envs₂ })
          | .error e => some (.error (.error e), s₁)
        | none =>
          match Environment.assign s₁.envs.length s₁.envs s₁.globals name v with
          | .ok envs₂ => some (.ok v, { s₁ with envs := envs₂ })
          | .error e => some (.error (.error e), s₁)
    | .binary left operator right =>
      match Interpreter.evaluate fuel left s with
      | none => none
      | some (.error e, s₁) => some (.error (.error e), s₁)
      | some (.ok l, s₁) =>
        match Interpreter.evaluate fuel right s₁ with
        | none => none
        | some (.error e, s₂) => some (.error (.error e), s₂)
        | some (.ok r, s₂) =>
          match Interpreter.binary_op operator l r with
          | .ok v => some (.ok v, s₂)
          | .error e => some (.error (.error e), s₂)
    | .call callee paren arguments =>
      match Interpreter._evaluate fuel callee s with
      | none => none
      | some (.error st, s₁) => some (.error st, s₁)
      | some (.ok calleeV, s₁) =>
        match Interpreter.evalArgs fuel arguments s₁ with
        | none => none
        | some (.error st, s₂) => some (.error st, s₂)
        | some (.ok args, s₂) =>
          match calleeV with
          | .callable c =>
            if args.length ≠ c.arity then
              some (.error (.error (RuntimeError.new paren
                ("Expected " ++ toString c.arity ++ " arguments but got " ++
                 toString args.length))), s₂)
            else
              match LoxCallableObj.call fuel c args s₂ with
              | none => none
              | some (.error st, s₃) => some (.error st, s₃)
              | some (.ok (some v), s₃) => some (.ok v, s₃)
              | some (.ok none, s₃) => some (.ok .nil, s₃)
          | .classObj cref =>
            if args.length ≠ classArity s₂ cref then
              some (.error (.error (RuntimeError.new paren
                ("Expected " ++ toString (classArity s₂ cref) ++
                 " arguments but got " ++ toString args.length))), s₂)
            else
              match Interpreter.classCall fuel cref args s₂ with
              | none => none
              | some (.error st, s₃) => some (.error st, s₃)
              | some (.ok (some v), s₃) => some (.ok v, s₃)
              | some (.ok none, s₃) => some (.ok .nil, s₃)
          | _ =>
              some (.error (.error (RuntimeError.new paren
                "Callee is not a callable expression (function, method, or class ctor).")), s₂)
    | .get object name =>
      match Interpreter.evaluate fuel object s with
      | none => none
      | some (.error e, s₁) => some (.error (.error e), s₁)
      | some (.ok obj, s₁) =>
        match obj with
        | .instanceObj iref =>
          match instanceGet s₁ iref name with
          | (.error e, s₂) => some (.error (.error e), s₂)
          | (.ok v, s₂) =>
            match v with
            | .callable c =>
              if c.is_property then
                match LoxCallableObj.call fuel c [] s₂ with
                | none => none
                | some (.error st, s₃) => some (.error st, s₃)
                | some (.ok (some r), s₃) => some (.ok r, s₃)
                | some (.ok none, s₃) => some (.ok .nil, s₃)
              else some (.ok v, s₂)
            | _ => some (.ok v, s₂)
        | .classObj cref =>
          match classGet s₁ cref name with
          | .ok v => some (.ok v, s₁)
          | .error e => some (.error (.error e), s₁)
        | _ =>
            some (.error (.error (RuntimeError.new name
              "Only instances have properties.")), s₁)
    | .grouping contents => Interpreter._evaluate fuel contents s
    | .lambda parameters body =>
      let f : LoxFunctionData :=
        { name := none, parameters := parameters, body := body,
          closure := s.environment, is_initializer := false,
          fn_type := .Lambda }
      some (.ok (.callable (.function f)), s)
    | .literal value => some (.ok (LoxObject.from_literal value), s)
    | .logical left operator right =>
      match Interpreter.evaluate fuel left s with
      | none => none
      | some (.error e, s₁) => some (.error (.error e), s₁)
      | some (.ok l, s₁) =>
        match operator.token_type with
        | .Or =>
          if l.is_truthy then some (.ok l, s₁)
          else Interpreter._evaluate fuel right s₁
        | .And =>
          if !l.is_truthy then some (.ok l, s₁)
          else Interpreter._evaluate fuel right s₁
        | _ =>
            some (.error (.error (RuntimeError.new operator
              "Only And and Or are supported conditional operators.")), s₁)
    | .set object name value =>
      match Interpreter.evaluate fuel object s with
      | none => none
      | some (.error e, s₁) => some (.error (.error e), s₁)
      | some (.ok obj, s₁) =>
        match obj with
        | .instanceObj iref =>
          match Interpreter.evaluate fuel value s₁ with
          | none => none
          | some (.error e, s₂) => some (.error (.error e), s₂)
          | some (.ok v, s₂) => some (.ok v, instanceSet s₂ iref name v)
        | .classObj cref =>
          match Interpreter.evaluate fuel value s₁ with
          | none => none
          | some (.error e, s₂) => some (.error (.error e), s₂)
          | some (.ok v, s₂) => some (.ok v, classSet s₂ cref name v)
        | _ =>
            some (.error (.error (RuntimeError.new name
              "Only object instances have fields.")), s₁)
    | .ternary condition then_value else_value =>
      match Interpreter.evaluate fuel condition s with
      | none => none
      | some (.error e, s₁) => some (.error (.error e), s₁)
      | some (.ok c, s₁) =>
        if c.is_truthy then Interpreter._evaluate fuel then_value s₁
        else Interpreter._evaluate fuel else_value s₁
    | .thisExpr keyword =>
      match Interpreter.look_up_variable s keyword expr with
      | .ok v => some (.ok v, s)
      | .error e => some (.error (.error e), s)
    | .unary operator right =>
      match Interpreter.evaluate fuel right s with
      | none => none
      | some (.error e, s₁) => some (.error (.error e), s₁)
      | some (.ok r, s₁) =>
        match operator.token_type with
        | .Bang => some (.ok (.boolean (!r.is_truthy)), s₁)
        | .Minus =>
          match r with
          | .number n => some (.ok (.number (f64neg n)), s₁)
          | _ =>
              some (.error (.error (RuntimeError.new operator
                "Unary negative can only be applied to numbers.")), s₁)
        | _ =>
            some (.error (.error (RuntimeError.new operator
              "Unsupported unary operator.")), s₁)
    | .varExpr name =>
      match Interpreter.look_up_variable s name expr with
      | .ok v => some (.ok v, s)
      | .error e => some (.error (.error e), s)

/-- `Interpreter::evaluate`: `_evaluate` with signals collapsed through
`_process_error`. -/
def Interpreter.evaluate :
    Nat → Expr → Interpreter →
    Option (Except RuntimeError LoxObject × Interpreter)
  | 0, _, _ => none
  | fuel + 1, expr, s =>
    match Interpreter._evaluate fuel expr s with
    | none => none
    | some (.ok v, s₁) => some (.ok v, s₁)
    | some (.error st, s₁) => some (.error (Interpreter._process_error st), s₁)

/-- The argument-evaluation loop of `visit_call_expr` (left to right,
`_evaluate`). -/
def Interpreter.evalArgs :
    Nat → List Expr → Interpreter →
    Option (Except InterpretResultStatus (List LoxObject) × Interpreter)
  | 0, _, _ => none
  | fuel + 1, args, s =>
    match args with
    | [] => some (.ok [], s)
    | a :: rest =>
      match Interpreter._evaluate fuel a s with
      | none => none
      | some (.error st, s₁) => some (.error st, s₁)
      | some (.ok v, s₁) =>
        match Interpreter.evalArgs fuel rest s₁ with
        | none => none
        | some (.error st, s₂) => some (.error st, s₂)
        | some (.ok vs, s₂) => some (.ok (v :: vs), s₂)

/-- `Interpreter::execute` / `StmtVisitor` impl: statement execution. -/
def Interpreter.execute :
    Nat → Stmt → Interpreter →
    Option (Except InterpretResultStatus Unit × Interpreter)
  | 0, _, _ => none
  | fuel + 1, stmt, s =>
    match stmt with
    | .block statements =>
      let (env, envs₁) := Environment.as_child_of s.environment s.envs
      Interpreter.execute_block fuel statements env { s with envs := envs₁ }
    | .breakStmt _ => some (.error .brk, s)
    | .classStmt name methods class_methods =>
      let s₁ := { s with envs := Environment.define s.envs s.environment name.lexeme .nil }
      match buildMethodMap s₁.environment name true methods [] with
      | .error st => some (.error st, s₁)
      | .ok instance_method_fns =>
        match buildMethodMap s₁.environment name false class_methods [] with
        | .error st => some (.error st, s₁)
        | .ok class_method_fns =>
          let cref := s₁.classes.length
          let cd : LoxClassData :=
            { name := name.lexeme, methods := instance_method_fns,
              class_fields := [], class_methods := class_method_fns,
              super_class := none }
          let s₂ := { s₁ with classes := s₁.classes ++ [cd] }
          match Environment.assign s₂.envs.length s₂.envs s₂.environment name
              (.classObj cref) with
          | .ok envs₂ => some (.ok (), { s₂ with envs := envs₂ })
          | .error e => some (.error (.error e), s₂)
    | .expression e =>
      match Interpreter.evaluate fuel e s with
      | none => none
      | some (.ok _, s₁) => some (.ok (), s₁)
      | some (.error e, s₁) => some (.error (.error e), s₁)
    | .function name parameters body fn_type =>
      let f : LoxFunctionData :=
        { name := some name, parameters := parameters, body := body,
          closure := s.environment, is_initializer := false,
          fn_type := fn_type }
      let envs₁ :=
        Environment.define s.envs s.environment name.lexeme
          (.callable (.function f))
      some (.ok (), { s with envs := envs₁ })
    | .ifStmt condition then_branch else_branch =>
      match Interpreter.evaluate fuel condition s with
      | none => none
      | some (.error e, s₁) => some (.error (.error e), s₁)
      | some (.ok c, s₁) =>
        if c.is_truthy then
          match Interpreter.execute fuel then_branch s₁ with
          | none => none
          | some (.error st, s₂) => some (.error st, s₂)
          | some (.ok (), s₂) => some (.ok (), s₂)
        else
          match else_branch with
          | some eb =>
            match Interpreter.execute fuel eb s₁ with
            | none => none
            | some (.error st, s₂) => some (.error st, s₂)
            | some (.ok (), s₂) => some (.ok (), s₂)
          | none => some (.ok (), s₁)
    | .print e =>
      match Interpreter.evaluate fuel e s with
      | none => none
      | some (.error e, s₁) => some (.error (.error e), s₁)
      | some (.ok v, s₁) =>
          some (.ok (), { s₁ with output := s₁.output ++ [LoxObject.display s₁ v] })
    | .returnStmt _ value =>
      match value with
      | some v =>
        match Interpreter._evaluate fuel v s with
        | none => none
        | some (.error st, s₁) => some (.error st, s₁)
        | some (.ok rv, s₁) => some (.error (.ret (some rv)), s₁)
      | none => some (.error (.ret none), s)
    | .var name initializer =>
      match initializer with
      | some i =>
        match Interpreter.evaluate fuel i s with
        | none => none
        | some (.error e, s₁) => some (.error (.error e), s₁)
        | some (.ok v, s₁) =>
            some (.ok (),
              { s₁ with envs := Environment.define s₁.envs s₁.environment name.lexeme v })
      | none =>
          some (.ok (),
            { s with envs :=
                Environment.define s.envs s.environment name.lexeme .undefined })
    | .whileStmt condition body =>
      match Interpreter.evaluate fuel condition s with
      | none => none
      | some (.error e, s₁) => some (.error (.error e), s₁)
      | some (.ok c, s₁) =>
        if c.is_truthy then
          match Interpreter.execute fuel body s₁ with
          | none => none
          | some (.ok (), s₂) => Interpreter.execute fuel (.whileStmt condition body) s₂
          | some (.error st, s₂) =>
            match st with
            | .error e => some (.error (.error e), s₂)
            | .brk => some (.ok (), s₂)
            | .ret v => some (.error (.ret v), s₂)
        else some (.ok (), s₁)

/-- The statement loop shared by `Interpreter::interpret` and
`Interpreter::execute_block`: execute in order, stop at the first abrupt
completion. -/
def Interpreter.execStmtList :
    Nat → List Stmt → Interpreter →
    Option (Except InterpretResultStatus Unit × Interpreter)
  | 0, _, _ => none
  | fuel + 1, stmts, s =>
    match stmts with
    | [] => some (.ok (), s)
    | st :: rest =>
      match Interpreter.execute fuel st s with
      | none => none
      | some (.error e, s₁) => some (.error e, s₁)
      | some (.ok (), s₁) => Interpreter.execStmtList fuel rest s₁

/-- `Interpreter::execute_block`: install `env` as the current environment,
run the statements, and restore the previous environment on every exit
path (the source restores separately on the error path and after the
loop; both restores write back the same saved handle). -/
def Interpreter.execute_block :
    Nat → List Stmt → Nat → Interpreter →
    Option (Except InterpretResultStatus Unit × Interpreter)
  | 0, _, _, _ => none
  | fuel + 1, statements, env, s =>
    let previous_env := s.environment
    match Interpreter.execStmtList fuel statements { s with environment := env } with
    | none => none
    | some (r, s₁) => some (r, { s₁ with environment := previous_env })

/-- `function.rs` `LoxFunction::call`. -/
def LoxFunctionData.call :
    Nat → LoxFunctionData → List LoxObject → Interpreter →
    Option (Except InterpretResultStatus (Option LoxObject) × Interpreter)
  | 0, _, _, _ => none
  | fuel + 1, f, args, s =>
    let (envRef, s₁) := f.callEnv args s
    match Interpreter.execute_block fuel f.body envRef s₁ with
    | none => none
    | some (.ok (), s₂) =>
      if f.is_initializer then
        match Environment.get_at s₂.envs f.closure 0 "this" with
        | .ok v => some (.ok (some v), s₂)
        | .error e => some (.error (.error e), s₂)
      else some (.ok none, s₂)
    | some (.error st, s₂) =>
      match st with
      | .ret v =>
        if f.is_initializer then
          match Environment.get_at s₂.envs f.closure 0 "this" with
          | .ok tv => some (.ok (some tv), s₂)
          | .error e => some (.error (.error e), s₂)
        else
          match v with
          | some rv => some (.ok (some rv), s₂)
          | none => some (.ok none, s₂)
      | _ => some (.error st, s₂)

/-- `LoxCallable::call` dispatch over the callable implementations. The
native clock's wall-clock reading is not representable; its (claim-
irrelevant) numeric result is modelled as 0. -/
def LoxCallableObj.call :
    Nat → LoxCallableObj → List LoxObject → Interpreter →
    Option (Except InterpretResultStatus (Option LoxObject) × Interpreter)
  | 0, _, _, _ => none
  | fuel + 1, c, args, s =>
    match c with
    | .function f => LoxFunctionData.call fuel f args s
    | .nativeClock => some (.ok (some (.number 0)), s)

/-- `class.rs` `LoxClass::call` (the constructor): allocate a fresh
instance; if an `init` method exists, bind and call it. -/
def Interpreter.classCall :
    Nat → Nat → List LoxObject → Interpreter →
    Option (Except InterpretResultStatus (Option LoxObject) × Interpreter)
  | 0, _, _, _ => none
  | fuel + 1, cref, args, s =>
    let iref := s.instances.length
    let s₁ := { s with instances := s.instances ++ [{ class_data := cref, fields := [] }] }
    match findMethod s₁.classes.length s₁.classes cref "init" with
    | some m =>
      let (bound, s₂) := m.bind iref s₁
      match LoxFunctionData.call fuel bound args s₂ with
      | none => none
      | some (.error st, s₃) => some (.error st, s₃)
      | some (.ok _, s₃) => some (.ok (some (.instanceObj iref)), s₃)
    | none => some (.ok (some (.instanceObj iref)), s₁)

end

/-- `Interpreter::interpret`: run the program statements; the first abrupt
completion is converted by `_process_error` into a runtime error. -/
def Interpreter.interpret (fuel : Nat) (statements : List Stmt)
    (s : Interpreter) : Option (Except RuntimeError Unit × Interpreter) :=
  match Interpreter.execStmtList fuel statements s with
  | none => none
  | some (.ok (), s₁) => some (.ok (), s₁)
  | some (.error st, s₁) => some (.error (Interpreter._process_error st), s₁)

/-! ## The resolver (`resolver.rs`)

The scope stack is a list with the innermost scope at the head (`Vec` with
push/pop at the end in the source); the recorded distance
`scopes.len() - 1 - i` is then the position from the head. The resolver
state also carries the `locals` side-table it writes into the interpreter
via `Interpreter::resolve_local`. -/

/-- `resolver.rs` `FunctionType`. -/
inductive FunctionType where
  | NoFunction
  | Function
  | Initializer
  | Method
  | Lambda
deriving DecidableEq, Repr

/-- `resolver.rs` `ClassType`. -/
inductive ClassType where
  | NoClass
  | Class
deriving DecidableEq, Repr

/-- `resolver.rs` `VariableState`. -/
inductive VariableState where
  | Declared
  | Defined
  | Accessed
deriving DecidableEq, Repr

/-- `resolver.rs` `Variable`. -/
structure RVariable where
  state : VariableState
  token : Option Token
deriving BEq

def RVariable.new (token : Option Token) : RVariable :=
  { state := .Declared, token := token }

def RVariable.is_defined (v : RVariable) : Bool :=
  match v.state with
  | .Declared => false
  | _ => true

def RVariable.is_accessed (v : RVariable) : Bool :=
  match v.state with
  | .Accessed => true
  | _ => false

/-- `resolver.rs` `Resolver` (scope stack, context tracking, per-function
loop-depth stack) together with the interpreter `locals` table it fills. -/
structure Resolver where
  scopes : List (List (String × RVariable))
  current_function : FunctionType
  current_class : ClassType
  loop_depths : List Int
  locals : List (Expr × Nat)

/-- `Resolver::new`. -/
def Resolver.new : Resolver :=
  { scopes := [], current_function := .NoFunction, current_class := .NoClass,
    loop_depths := [0], locals := [] }

/-- `Resolver::begin_scope`. -/
def Resolver.begin_scope (r : Resolver) : Resolver :=
  { r with scopes := [] :: r.scopes }

/-- `Resolver::end_scope`: outside the global scope, fail if some variable in
the popped scope was never accessed, else pop. -/
def Resolver.end_scope (r : Resolver) : Except ResolveError Resolver :=
  match r.scopes with
  | [] => .ok r
  | scope :: rest =>
    match scope.find? (fun p => !p.2.is_accessed) with
    | some p =>
        .error (ResolveError.new p.2.token
          ("Variable \"" ++
           (match p.2.token with
            | some t => t.lexeme
            | none => "<unknown>") ++
           "\" defined but never accessed"))
    | none => .ok { r with scopes := rest }

/-- `Resolver::declare`: error on re-declaration in the same non-global
scope, else insert as `Declared`. -/
def Resolver.declare (r : Resolver) (name : Token) : Except ResolveError Resolver :=
  match r.scopes with
  | [] => .ok r
  | scope :: rest =>
    if alistContains scope name.lexeme then
      .error (ResolveError.new (some name)
        ("Variable named \"" ++ name.lexeme ++ "\" already defined in this scope."))
    else
      .ok { r with scopes := (alistInsert scope name.lexeme (RVariable.new (some name))) :: rest }

/-- `Resolver::define`. -/
def Resolver.define (r : Resolver) (name : Token) : Resolver :=
  match r.scopes with
  | [] => r
  | scope :: rest =>
    match alistGet scope name.lexeme with
    | some v =>
        { r with scopes := (alistInsert scope name.lexeme { v with state := .Defined }) :: rest }
    | none => r

/-- Mark the named variable `Accessed` in one scope. -/
def markAccessed (scope : List (String × RVariable)) (name : String) :
    List (String × RVariable) :=
  scope.map (fun p => if p.1 == name then (p.1, { p.2 with state := .Accessed }) else p)

/-- The scan of `Resolver::resolve_local`: innermost scope outward; on the
first scope containing the name, mark it accessed and report the distance
(= position from the innermost scope). -/
def resolveLocalGo (scopes : List (List (String × RVariable))) (name : String) :
    Option (List (List (String × RVariable)) × Nat) :=
  match scopes with
  | [] => none
  | scope :: rest =>
    if alistContains scope name then
      some (markAccessed scope name :: rest, 0)
    else
      match resolveLocalGo rest name with
      | some (rest₁, d) => some (scope :: rest₁, d + 1)
      | none => none

/-- `Resolver::resolve_local`: record the distance for this expression node
(no hit means the variable is treated as global). -/
def Resolver.resolve_local (r : Resolver) (varNode : Expr) (name : Token) :
    Resolver :=
  match resolveLocalGo r.scopes name.lexeme with
  | some (scopes₁, distance) =>
      { r with scopes := scopes₁, locals := alistInsert r.locals varNode distance }
  | none => r

/-- The parameter loop of `Resolver::resolve_function`: declare then define
each parameter. -/
def Resolver.declareParams (r : Resolver) : List Token → Except ResolveError Resolver
  | [] => .ok r
  | p :: rest =>
    match Resolver.declare r p with
    | .error e => .error e
    | .ok r₁ => Resolver.declareParams (Resolver.define r₁ p) rest

/-- Bump the innermost loop depth (`visit_while_stmt` entry). -/
def Resolver.incLoopDepth (r : Resolver) : Resolver :=
  match r.loop_depths with
  | d :: rest => { r with loop_depths := (d + 1) :: rest }
  | [] => r

/-- Drop the innermost loop depth by one (`visit_while_stmt` exit). -/
def Resolver.decLoopDepth (r : Resolver) : Resolver :=
  match r.loop_depths with
  | d :: rest => { r with loop_depths := (d - 1) :: rest }
  | [] => r

mutual

/-- `StmtVisitor` impl of `resolver.rs`. The `resolver.rs` revision in the
tree predates the `class_methods` list of `ast.rs`; class methods are
resolved like instance methods but never as initializers, matching the
interpreter's treatment. -/
def Resolver.resolveStmt : Nat → Stmt → Resolver → Option (Except ResolveError Resolver)
  | 0, _, _ => none
  | fuel + 1, stmt, r =>
    match stmt with
    | .block statements =>
      match Resolver.resolveStmts fuel statements r.begin_scope with
      | none => none
      | some (.error e) => some (.error e)
      | some (.ok r₁) => some (Resolver.end_scope r₁)
    | .breakStmt keyword =>
      match r.loop_depths.head? with
      | some d =>
        if d = 0 then
          some (.error (ResolveError.new (some keyword)
            "Illegal \"break\" statement outside of a loop."))
        else some (.ok r)
      | none => some (.ok r)
    | .classStmt name methods class_methods =>
      let enclosing_class := r.current_class
      let r₁ := { r with current_class := ClassType.Class }
      match Resolver.declare r₁ name with
      | .error e => some (.error e)
      | .ok r₂ =>
        let r₃ := (Resolver.define r₂ name).begin_scope
        let r₄ :=
          match r₃.scopes with
          | scope :: rest =>
              { r₃ with scopes :=
                  (alistInsert scope "this" { state := .Accessed, token := none }) :: rest }
          | [] => r₃
        match Resolver.resolveMethods fuel name methods true r₄ with
        | none => none
        | some (.error e) => some (.error e)
        | some (.ok r₅) =>
          match Resolver.resolveMethods fuel name class_methods false r₅ with
          | none => none
          | some (.error e) => some (.error e)
          | some (.ok r₆) =>
            match Resolver.end_scope r₆ with
            | .error e => some (.error e)
            | .ok r₇ => some (.ok { r₇ with current_class := enclosing_class })
    | .expression e => Resolver.resolveExpr fuel e r
    | .function name parameters body _ =>
      match Resolver.declare r name with
      | .error e => some (.error e)
      | .ok r₁ =>
          Resolver.resolve_function fuel parameters body .Function
            (Resolver.define r₁ name)
    | .ifStmt condition then_branch else_branch =>
      match Resolver.resolveExpr fuel condition r with
      | none => none
      | some (.error e) => some (.error e)
      | some (.ok r₁) =>
        match Resolver.resolveStmt fuel then_branch r₁ with
        | none => none
        | some (.error e) => some (.error e)
        | some (.ok r₂) =>
          match else_branch with
          | some eb => Resolver.resolveStmt fuel eb r₂
          | none => some (.ok r₂)
    | .print e => Resolver.resolveExpr fuel e r
    | .returnStmt keyword value =>
      match r.current_function with
      | .NoFunction =>
          some (.error (ResolveError.new (some keyword)
            "Cannot return from top-level code."))
      | _ =>
        match value with
        | some v =>
          match r.current_function with
          | .Initializer =>
              some (.error (ResolveError.new (some keyword)
                "Cannot return a value from class initializer method."))
          | _ => Resolver.resolveExpr fuel v r
        | none => some (.ok r)
    | .var name initializer =>
      match Resolver.declare r name with
      | .error e => some (.error e)
      | .ok r₁ =>
        match initializer with
        | some i =>
          match Resolver.resolveExpr fuel i r₁ with
          | none => none
          | some (.error e) => some (.error e)
          | some (.ok r₂) => some (.ok (Resolver.define r₂ name))
        | none => some (.ok (Resolver.define r₁ name))
    | .whileStmt condition body =>
      let r₁ := r.incLoopDepth
      match Resolver.resolveExpr fuel condition r₁ with
      | none => none
      | some (.error e) => some (.error e)
      | some (.ok r₂) =>
        match Resolver.resolveStmt fuel body r₂ with
        | none => none
        | some (.error e) => some (.error e)
        | some (.ok r₃) => some (.ok r₃.decLoopDepth)

/-- `ExprVisitor` impl of `resolver.rs`. -/
def Resolver.resolveExpr : Nat → Expr → Resolver → Option (Except ResolveError Resolver)
  | 0, _, _ => none
  | fuel + 1, expr, r =>
    match expr with
    | .assign name value =>
      match Resolver.resolveExpr fuel value r with
      | none => none
      | some (.error e) => some (.error e)
      | some (.ok r₁) => some (.ok (Resolver.resolve_local r₁ expr name))
    | .binary left _ right =>
      match Resolver.resolveExpr fuel left r with
      | none => none
      | some (.error e) => some (.error e)
      | some (.ok r₁) => Resolver.resolveExpr fuel right r₁
    | .call callee _ arguments =>
      match Resolver.resolveExpr fuel callee r with
      | none => none
      | some (.error e) => some (.error e)
      | some (.ok r₁) => Resolver.resolveExprs fuel arguments r₁
    | .get object _ => Resolver.resolveExpr fuel object r
    | .grouping contents => Resolver.resolveExpr fuel contents r
    | .lambda parameters body =>
        Resolver.resolve_function fuel parameters body .Lambda r
    | .literal _ => some (.ok r)
    | .logical left _ right =>
      match Resolver.resolveExpr fuel left r with
      | none => none
      | some (.error e) => some (.error e)
      | some (.ok r₁) => Resolver.resolveExpr fuel right r₁
    | .set object _ value =>
      match Resolver.resolveExpr fuel value r with
      | none => none
      | some (.error e) => some (.error e)
      | some (.ok r₁) => Resolver.resolveExpr fuel object r₁
    | .ternary condition then_value else_value =>
      match Resolver.resolveExpr fuel condition r with
      | none => none
      | some (.error e) => some (.error e)
      | some (.ok r₁) =>
        match Resolver.resolveExpr fuel then_value r₁ with
        | none => none
        | some (.error e) => some (.error e)
        | some (.ok r₂) => Resolver.resolveExpr fuel else_value r₂
    | .thisExpr keyword =>
      match r.current_class with
      | .Class => some (.ok (Resolver.resolve_local r expr keyword))
      | .NoClass =>
          some (.error (ResolveError.new (some keyword)
            "Cannot use \"this\" outside of a class."))
    | .unary _ right => Resolver.resolveExpr fuel right r
    | .varExpr name =>
      match r.scopes.head? with
      | some scope =>
        match alistGet scope name.lexeme with
        | some v =>
          if !v.is_defined then
            some (.error (ResolveError.new (some name)
              "Cannot read local variable in its own initializer."))
          else some (.ok (Resolver.resolve_local r expr name))
        | none => some (.ok (Resolver.resolve_local r expr name))
      | none => some (.ok (Resolver.resolve_local r expr name))

/-- `Resolver::resolve_statements`. -/
def Resolver.resolveStmts : Nat → List Stmt → Resolver → Option (Except ResolveError Resolver)
  | 0, _, _ => none
  | fuel + 1, stmts, r =>
    match stmts with
    | [] => some (.ok r)
    | st :: rest =>
      match Resolver.resolveStmt fuel st r with
      | none => none
      | some (.error e) => some (.error e)
      | some (.ok r₁) => Resolver.resolveStmts fuel rest r₁

/-- The argument loop of `visit_call_expr` in the resolver. -/
def Resolver.resolveExprs : Nat → List Expr → Resolver → Option (Except ResolveError Resolver)
  | 0, _, _ => none
  | fuel + 1, exprs, r =>
    match exprs with
    | [] => some (.ok r)
    | e :: rest =>
      match Resolver.resolveExpr fuel e r with
      | none => none
      | some (.error err) => some (.error err)
      | some (.ok r₁) => Resolver.resolveExprs fuel rest r₁

/-- `Resolver::resolve_function`: push a fresh loop-depth frame and scope,
declare/define the parameters, resolve the body, close the scope and
restore the context. -/
def Resolver.resolve_function :
    Nat → List Token → List Stmt → FunctionType → Resolver →
    Option (Except ResolveError Resolver)
  | 0, _, _, _, _ => none
  | fuel + 1, parameters, body, function_type, r =>
    let enclosing_function := r.current_function
    let r₁ :=
      ({ r with current_function := function_type,
                loop_depths := 0 :: r.loop_depths }).begin_scope
    match Resolver.declareParams r₁ parameters with
    | .error e => some (.error e)
    | .ok r₂ =>
      match Resolver.resolveStmts fuel body r₂ with
      | none => none
      | some (.error e) => some (.error e)
      | some (.ok r₃) =>
        match Resolver.end_scope r₃ with
        | .error e => some (.error e)
        | .ok r₄ =>
            some (.ok { r₄ with loop_depths := r₄.loop_depths.tail,
                                current_function := enclosing_function })

/-- The method loops of the resolver's `visit_class_stmt`: each member must
be a `Stmt::Function`; instance methods named `init` resolve as
initializers. -/
def Resolver.resolveMethods :
    Nat → Token → List Stmt → Bool → Resolver →
    Option (Except ResolveError Resolver)
  | 0, _, _, _, _ => none
  | fuel + 1, class_name, methods, is_instance, r =>
    match methods with
    | [] => some (.ok r)
    | m :: rest =>
      match m with
      | .function name parameters body _ =>
        let declaration :=
          if is_instance && name.lexeme == "init" then FunctionType.Initializer
          else FunctionType.Method
        match Resolver.resolve_function fuel parameters body declaration r with
        | none => none
        | some (.error e) => some (.error e)
        | some (.ok r₁) => Resolver.resolveMethods fuel class_name rest is_instance r₁
      | _ =>
          some (.error (ResolveError.new (some class_name)
            "Method in class stmt somehow not a Stmt::Function instance."))

end

/-- `Resolver::resolve`. -/
def Resolver.resolve (fuel : Nat) (statements : List Stmt) (r : Resolver) :
    Option (Except ResolveError Resolver) :=
  Resolver.resolveStmts fuel statements r

/-! ## The scanner (`scanner.rs`)

Source text is a list of characters (the source handles UTF-8 graphemes;
every character the scanner reacts to is ASCII, where grapheme = char).
Scan errors reported through `error::report` are collected in an error
list. The unexpected-character arm of `scan_tokens` is a `panic!` in the
source; it is modelled as the distinguished `panicked` outcome. -/

/-- The outcome of `Scanner::scan_tokens`: the token list together with the
reported scan errors, or a Rust panic. -/
inductive ScanResult where
  | tokens (ts : List Token) (errors : List String)
  | panicked (msg : String)
deriving DecidableEq, Repr

/-- `scanner.rs` `is_digit`. -/
def Scanner.is_digit (c : Char) : Bool :=
  '0' ≤ c && c ≤ '9'

/-- `scanner.rs` `is_alpha`. -/
def Scanner.is_alpha (c : Char) : Bool :=
  ('a' ≤ c && c ≤ 'z') || ('A' ≤ c && c ≤ 'Z') || c = '_'

/-- `scanner.rs` `is_alpha_numeric`. -/
def Scanner.is_alpha_numeric (c : Char) : Bool :=
  Scanner.is_alpha c || Scanner.is_digit c

/-- `Scanner::create_keywords`. -/
def Scanner.keywords : String → Option TokenType
  | "and" => some .And
  | "break" => some .Break
  | "class" => some .Class
  | "else" => some .Else
  | "false" => some .False
  | "for" => some .For
  | "fun" => some .Fun
  | "if" => some .If
  | "nil" => some .Nil
  | "or" => some .Or
  | "print" => some .Print
  | "return" => some .Return
  | "super" => some .Super
  | "this" => some .This
  | "true" => some .True
  | "var" => some .Var
  | "while" => some .While
  | _ => none

/-- The line-comment loop of `scan_tokens` (stop before the newline, which
the main loop then handles). -/
def Scanner.skipComment : List Char → List Char
  | [] => []
  | c :: rest => if c = '\n' then c :: rest else Scanner.skipComment rest

/-- The format of `error::report::error` with an empty context. -/
def Scanner.errLine (line : Int) (msg : String) : String :=
  "[line " ++ toString line ++ "] Error : " ++ msg

/-- `Scanner::string`: collect characters (newlines included, bumping the
line counter) up to the closing quote; `none` means the source ended first
(unterminated string). -/
def Scanner.scanString (acc : List Char) (line : Int) :
    List Char → Option String × List Char × Int
  | [] => (none, [], line)
  | c :: rest =>
    if c = '"' then (some (String.mk acc.reverse), rest, line)
    else Scanner.scanString (c :: acc) (if c = '\n' then line + 1 else line) rest

/-- Split the longest digit run off the front. -/
def Scanner.takeDigits (acc : List Char) : List Char → List Char × List Char
  | [] => (acc.reverse, [])
  | c :: rest =>
    if Scanner.is_digit c then Scanner.takeDigits (c :: acc) rest
    else (acc.reverse, c :: rest)

/-- Split the longest identifier run off the front. -/
def Scanner.takeAlnum (acc : List Char) : List Char → List Char × List Char
  | [] => (acc.reverse, [])
  | c :: rest =>
    if Scanner.is_alpha_numeric c then Scanner.takeAlnum (c :: acc) rest
    else (acc.reverse, c :: rest)

/-- Digits to a natural number. -/
def Scanner.digitsToNat (acc : Nat) : List Char → Nat
  | [] => acc
  | c :: rest => Scanner.digitsToNat (acc * 10 + (c.toNat - '0'.toNat)) rest

/-- `Scanner::number`: integer digits with an optional fraction, parsed
exactly (the `f64` rounding of `str::parse` is abstracted away; the
digits-only string always parses, so the unreachable parse-error report is
not modelled). Returns the token and the rest of the input. -/
def Scanner.scanNumber (first : Char) (line : Int) (rest : List Char) :
    Token × List Char :=
  let (intDigits, rest₁) := Scanner.takeDigits [first] rest
  match rest₁ with
  | '.' :: d :: rest₂ =>
    if Scanner.is_digit d then
      let (fracDigits, rest₃) := Scanner.takeDigits [d] rest₂
      let lexeme := String.mk (intDigits ++ '.' :: fracDigits)
      let value : ℚ :=
        mkRat (Scanner.digitsToNat 0 intDigits * 10 ^ fracDigits.length +
               Scanner.digitsToNat 0 fracDigits) (10 ^ fracDigits.length)
      ({ token_type := .Number, lexeme := lexeme,
         literal := some (.number value), line := line }, rest₃)
    else
      let lexeme := String.mk intDigits
      ({ token_type := .Number, lexeme := lexeme,
         literal := some (.number (Scanner.digitsToNat 0 intDigits : ℚ)),
         line := line }, rest₁)
  | _ =>
    let lexeme := String.mk intDigits
    ({ token_type := .Number, lexeme := lexeme,
       literal := some (.number (Scanner.digitsToNat 0 intDigits : ℚ)),
       line := line }, rest₁)

/-- `Scanner::identifier`: identifier characters, then the keyword table. -/
def Scanner.scanIdentifier (first : Char) (line : Int) (rest : List Char) :
    Token × List Char :=
  let (chars, rest₁) := Scanner.takeAlnum [first] rest
  let identifier := String.mk chars
  match Scanner.keywords identifier with
  | some tt => ({ token_type := tt, lexeme := identifier, literal := none, line := line }, rest₁)
  | none =>
      ({ token_type := .Identifier, lexeme := identifier, literal := none, line := line }, rest₁)

/-- A single-character token. -/
def Scanner.charToken (tt : TokenType) (c : Char) (line : Int) : Token :=
  { token_type := tt, lexeme := String.mk [c], literal := none, line := line }

/-- `Scanner::scan_tokens`, one grapheme per iteration; when the source is
exhausted the end-of-file token is appended. The unexpected-character arm
is the source's `panic!`. -/
def Scanner.scan_tokens :
    Nat → List Char → Int → List Token → List String → Option ScanResult
  | 0, _, _, _, _ => none
  | fuel + 1, chars, line, tokens, errors =>
    match chars with
    | [] =>
        some (.tokens
          (tokens ++ [{ token_type := .Eof, lexeme := "", literal := none, line := line }])
          errors)
    | c :: rest =>
      if c = '(' then
        Scanner.scan_tokens fuel rest line (tokens ++ [Scanner.charToken .LeftParen c line]) errors
      else if c = ')' then
        Scanner.scan_tokens fuel rest line (tokens ++ [Scanner.charToken .RightParen c line]) errors
      else if c = '{' then
        Scanner.scan_tokens fuel rest line (tokens ++ [Scanner.charToken .LeftBrace c line]) errors
      else if c = '}' then
        Scanner.scan_tokens fuel rest line (tokens ++ [Scanner.charToken .RightBrace c line]) errors
      else if c = ',' then
        Scanner.scan_tokens fuel rest line (tokens ++ [Scanner.charToken .Comma c line]) errors
      else if c = '.' then
        Scanner.scan_tokens fuel rest line (tokens ++ [Scanner.charToken .Dot c line]) errors
      else if c = '-' then
        Scanner.scan_tokens fuel rest line (tokens ++ [Scanner.charToken .Minus c line]) errors
      else if c = '+' then
        Scanner.scan_tokens fuel rest line (tokens ++ [Scanner.charToken .Plus c line]) errors
      else if c = ';' then
        Scanner.scan_tokens fuel rest line (tokens ++ [Scanner.charToken .Semicolon c line]) errors
      else if c = '*' then
        Scanner.scan_tokens fuel rest line (tokens ++ [Scanner.charToken .Star c line]) errors
      else if c = '?' then
        Scanner.scan_tokens fuel rest line (tokens ++ [Scanner.charToken .QuestionMark c line]) errors
      else if c = ':' then
        Scanner.scan_tokens fuel rest line (tokens ++ [Scanner.charToken .Colon c line]) errors
      else if c = '!' then
        match rest with
        | '=' :: rest₁ =>
            Scanner.scan_tokens fuel rest₁ line
              (tokens ++ [{ token_type := .BangEqual, lexeme := "!=", literal := none, line := line }]) errors
        | _ =>
            Scanner.scan_tokens fuel rest line (tokens ++ [Scanner.charToken .Bang c line]) errors
      else if c = '=' then
        match rest with
        | '=' :: rest₁ =>
            Scanner.scan_tokens fuel rest₁ line
              (tokens ++ [{ token_type := .EqualEqual, lexeme := "==", literal := none, line := line }]) errors
        | _ =>
            Scanner.scan_tokens fuel rest line (tokens ++ [Scanner.charToken .Equal c line]) errors
      else if c = '<' then
        match rest with
        | '=' :: rest₁ =>
            Scanner.scan_tokens fuel rest₁ line
              (tokens ++ [{ token_type := .LessEqual, lexeme := "<=", literal := none, line := line }]) errors
        | _ =>
            Scanner.scan_tokens fuel rest line (tokens ++ [Scanner.charToken .Less c line]) errors
      else if c = '>' then
        match rest with
        | '=' :: rest₁ =>
            Scanner.scan_tokens fuel rest₁ line
              (tokens ++ [{ token_type := .GreaterEqual, lexeme := ">=", literal := none, line := line }]) errors
        | _ =>
            Scanner.scan_tokens fuel rest line (tokens ++ [Scanner.charToken .Greater c line]) errors
      else if c = '/' then
        match rest with
        | '/' :: rest₁ =>
            Scanner.scan_tokens fuel (Scanner.skipComment rest₁) line tokens errors
        | _ =>
            Scanner.scan_tokens fuel rest line (tokens ++ [Scanner.charToken .Slash c line]) errors
      else if c = ' ' || c = '\r' || c = '\t' then
        Scanner.scan_tokens fuel rest line tokens errors
      else if c = '\n' then
        Scanner.scan_tokens fuel rest (line + 1) tokens errors
      else if c = '"' then
        match Scanner.scanString [] line rest with
        | (none, rest₁, line₁) =>
            Scanner.scan_tokens fuel rest₁ line₁ tokens
              (errors ++ [Scanner.errLine line₁ "Unterminated string"])
        | (some value, rest₁, line₁) =>
            Scanner.scan_tokens fuel rest₁ line₁
              (tokens ++ [{ token_type := .Str, lexeme := value,
                            literal := some (.str value), line := line₁ }]) errors
      else if Scanner.is_digit c then
        let (tok, rest₁) := Scanner.scanNumber c line rest
        Scanner.scan_tokens fuel rest₁ line (tokens ++ [tok]) errors
      else if Scanner.is_alpha c then
        let (tok, rest₁) := Scanner.scanIdentifier c line rest
        Scanner.scan_tokens fuel rest₁ line (tokens ++ [tok]) errors
      else
        some (.panicked ("Unexpected character: \"" ++ String.mk [c] ++ "\""))

/-- Scan a source string from the initial scanner state (line 1). -/
def Scanner.scan (fuel : Nat) (source : String) : Option ScanResult :=
  Scanner.scan_tokens fuel source.toList 1 [] []

/-! ## For-loop desugaring (`parser.rs` `Parser::for_stmt`) -/

/-- The AST construction at the end of `Parser::for_stmt` (parser.rs lines
345-373), applied to the already-parsed components: wrap the body with the
increment when present, wrap in a `while` whose condition defaults to the
literal `true`, and prepend the initializer in a block when present. -/
def Parser.forDesugar (initializer : Option Stmt) (condition : Option Expr)
    (increment : Option Expr) (body : Stmt) : Stmt :=
  let body₁ :=
    match increment with
    | some inc => Stmt.block [body, Stmt.expression inc]
    | none => body
  let body₂ :=
    match condition with
    | some c => Stmt.whileStmt c body₁
    | none => Stmt.whileStmt (Expr.literal .tru) body₁
  match initializer with
  | some i => Stmt.block [i, body₂]
  | none => body₂

/-- Modelled from the spec: "`for (I; C; U) B` is emitted as
`{ I; while (C) { B; U; } }` with the initializer omitted if absent and
condition defaulted to `true` if absent" — the AST of the right-hand
program, built from the same components (the braces around `B; U;` are the
block `[B, U-as-expression-statement]`). -/
def forDesugarSpec (initializer : Option Stmt) (condition : Option Expr)
    (increment : Expr) (body : Stmt) : Stmt :=
  let w :=
    Stmt.whileStmt
      (match condition with
       | some c => c
       | none => Expr.literal .tru)
      (Stmt.block [body, Stmt.expression increment])
  match initializer with
  | some i => Stmt.block [i, w]
  | none => w

/-! ## Concrete inputs used by witnesses and counterexamples -/

def tokSlash : Token := { token_type := .Slash, lexeme := "/", literal := none, line := 1 }

def tokEqEq : Token := { token_type := .EqualEqual, lexeme := "==", literal := none, line := 1 }

def tokBangEq : Token := { token_type := .BangEqual, lexeme := "!=", literal := none, line := 1 }

def tokBreak : Token := { token_type := .Break, lexeme := "break", literal := none, line := 1 }

def tokReturn : Token := { token_type := .Return, lexeme := "return", literal := none, line := 1 }

def xTok : Token := { token_type := .Identifier, lexeme := "x", literal := none, line := 1 }

def cTok : Token := { token_type := .Identifier, lexeme := "c", literal := none, line := 2 }

def fTok : Token := { token_type := .Identifier, lexeme := "f", literal := none, line := 1 }

def initTok : Token := { token_type := .Identifier, lexeme := "init", literal := none, line := 1 }

/-- Is the value a `Number`? (used to phrase operand-type side conditions). -/
def isNumberV : LoxObject → Bool
  | .number _ => true
  | _ => false

/-- Is the value a `Str`? -/
def isStrV : LoxObject → Bool
  | .str _ => true
  | _ => false

/-- The program `var x; print x;`. -/
def c1Program : List Stmt := [Stmt.var xTok none, Stmt.print (Expr.varExpr xTok)]

/-- The state after `var x;` from `Interpreter::new`: `x` is bound to
`Undefined` in the globals. -/
def c1Mid : Interpreter :=
  { Interpreter.new with
      envs := [{ enclosing := none,
                 values := [("clock", LoxObject.callable .nativeClock),
                            ("x", LoxObject.undefined)] }] }

/-- The state after `var x; print x;`: `<undefined>` was printed. -/
def c1After : Interpreter :=
  { c1Mid with output := ["<undefined>"] }

/-- The state after executing the block `{ var x; }` from `Interpreter::new`:
a discarded child frame holding `x`, current environment restored. -/
def c9After : Interpreter :=
  { Interpreter.new with
      envs := [{ enclosing := none,
                 values := [("clock", LoxObject.callable .nativeClock)] },
               { enclosing := some 0, values := [("x", LoxObject.undefined)] }] }

/-- A state whose environment 0 binds `this` (the closure of a bound
initializer). -/
def c3State : Interpreter :=
  { envs := [{ enclosing := none, values := [("this", LoxObject.instanceObj 0)] }]
    classes := []
    instances := [{ class_data := 0, fields := [] }]
    globals := 0
    environment := 0
    locals := []
    output := [] }

/-- An initializer (`init`) with empty body closing over environment 0. -/
def c3InitEmpty : LoxFunctionData :=
  { name := some initTok, parameters := [], body := [], closure := 0,
    is_initializer := true, fn_type := .Method }

/-- An initializer whose body is a bare `return;`. -/
def c3InitReturn : LoxFunctionData :=
  { c3InitEmpty with body := [Stmt.returnStmt tokReturn none] }

/-- A non-initializer function whose body is a bare `return;`. -/
def c2FunReturn : LoxFunctionData :=
  { name := some fTok, parameters := [], body := [Stmt.returnStmt tokReturn none],
    closure := 0, is_initializer := false, fn_type := .Function }

/-- A non-initializer function with an empty body. -/
def c3FunEmpty : LoxFunctionData :=
  { c2FunReturn with body := [] }

/-- A resolver state inside an initializer method. -/
def c3Resolver : Resolver :=
  { Resolver.new with current_function := .Initializer }

/-- `c3State` extended with the child frame `LoxFunction::call` creates. -/
def c3CallState : Interpreter :=
  { c3State with envs := c3State.envs ++ [{ enclosing := some 0, values := [] }] }

/-- `Interpreter.new` extended with the child frame `LoxFunction::call`
creates for a closure over the globals. -/
def c2CallState : Interpreter :=
  { Interpreter.new with
      envs := Interpreter.new.envs ++ [{ enclosing := some 0, values := [] }] }

/-- The program `fun f() { var c = 3; }` (as parsed). -/
def c8FunProgram : List Stmt :=
  [Stmt.function fTok [] [Stmt.var cTok (some (.literal (.number 3)))] .Function]

/-- The program `var c = 3;` at global scope. -/
def c8GlobalProgram : List Stmt :=
  [Stmt.var cTok (some (.literal (.number 3)))]

/-- A resolver state whose innermost scope holds a defined-but-unaccessed
variable `c`. -/
def c8Scope : Resolver :=
  { Resolver.new with scopes := [[("c", { state := .Defined, token := some cTok })]] }

/-! # Theorems -/

/-! ## The embedded arithmetic agrees with `ℚ` -/

theorem f64add_eq (a b : ℚ) : f64add a b = a + b := by
  unfold f64add
  rw [Rat.add_def']

theorem f64sub_eq (a b : ℚ) : f64sub a b = a - b := by
  unfold f64sub
  rw [Rat.sub_def']

theorem f64mul_eq (a b : ℚ) : f64mul a b = a * b := by
  unfold f64mul
  rw [Rat.mul_def, Rat.normalize_eq_mkRat]

theorem f64neg_eq (a : ℚ) : f64neg a = -a := by
  unfold f64neg
  rw [Rat.mkRat_eq_divInt, Rat.neg_def]

theorem f64div_eq (a b : ℚ) (hb : b ≠ 0) : f64div a b = a / b := by
  have hbnum : b.num ≠ 0 := Rat.num_ne_zero.mpr hb
  have hden : (a.den : ℤ) ≠ 0 := by exact_mod_cast Rat.den_nz a
  have hrhs : a / b = Rat.divInt (a.num * b.den) ((a.den : ℤ) * b.num) := by
    rw [Rat.div_def, Rat.inv_def]
    conv_lhs => rw [← Rat.divInt_self a]
    rw [Rat.divInt_mul_divInt _ _ hden hbnum]
  unfold f64div
  by_cases hm : (a.den : ℤ) * b.num < 0
  · rw [if_pos hm, Rat.mkRat_eq_divInt,
      Int.toNat_of_nonneg (by omega : (0:ℤ) ≤ -((a.den : ℤ) * b.num)),
      Rat.neg_divInt_neg, hrhs]
  · rw [if_neg hm, Rat.mkRat_eq_divInt,
      Int.toNat_of_nonneg (by omega : (0:ℤ) ≤ (a.den : ℤ) * b.num), hrhs]

theorem f64abs_eq_abs (q : ℚ) : f64abs q = |q| := by
  unfold f64abs
  by_cases h : q < 0
  · rw [if_pos h, f64neg_eq, abs_of_neg h]
  · rw [if_neg h, abs_of_nonneg (not_lt.mp h)]

/-- The divide-by-zero threshold constant. -/
theorem mkRat_one_1e8 : (mkRat 1 100000000 : ℚ) = 1 / 100000000 := by
  rw [Rat.mkRat_eq_div]
  norm_num

/-! ## C4 — `==` is defined exactly on two numbers or two strings -/

/-- C4: evaluating `a == b` succeeds if and only if both operands are
numbers (Boolean numeric equality) or both operands are strings (string
equality); every other operand combination raises a runtime error. -/
theorem C4_equality_numbers_or_strings_only :
    (∀ (op : Token) (a b : ℚ), op.token_type = .EqualEqual →
      Interpreter.binary_op op (.number a) (.number b) =
        .ok (.boolean (decide (a = b)))) ∧
    (∀ (op : Token) (x y : String), op.token_type = .EqualEqual →
      Interpreter.binary_op op (.str x) (.str y) =
        .ok (.boolean (decide (x = y)))) ∧
    (∀ (op : Token) (l r : LoxObject), op.token_type = .EqualEqual →
      (isNumberV l && isNumberV r) = false →
      (isStrV l && isStrV r) = false →
      ∃ e : RuntimeError, Interpreter.binary_op op l r = .error e) := by
  refine ⟨?_, ?_, ?_⟩
  · intro op a b hop
    simp [Interpreter.binary_op, hop]
  · intro op x y hop
    simp [Interpreter.binary_op, hop]
  · intro op l r hop h1 h2
    cases l <;> cases r <;> simp_all [Interpreter.binary_op, isNumberV, isStrV]

/-- Witness for C4 at concrete operands. -/
theorem C4_equality_numbers_or_strings_only_witness :
    (Interpreter.binary_op tokEqEq (.number 3) (.number 3) =
      .ok (.boolean (decide ((3 : ℚ) = 3)))) ∧
    (Interpreter.binary_op tokEqEq (.str "a") (.str "b") =
      .ok (.boolean (decide ("a" = "b")))) ∧
    (∃ e : RuntimeError,
      Interpreter.binary_op tokEqEq (.boolean true) .nil = .error e) :=
  ⟨C4_equality_numbers_or_strings_only.1 tokEqEq 3 3 (by rfl),
   C4_equality_numbers_or_strings_only.2.1 tokEqEq "a" "b" (by rfl),
   C4_equality_numbers_or_strings_only.2.2 tokEqEq (.boolean true) .nil
     (by rfl) (by rfl) (by rfl)⟩

/-! ## C5 — division and the 1e-8 zero guard

The source accepts the division only when `r.abs() > 1e-8` (strict
greater-than); the claim's "raises ... exactly when `|r| < 1e-8`" fails at
the boundary `|r| = 1e-8`, where the code errors but the claim promises a
quotient. -/

/-- C5 counterexample: at `r = 1e-8` the code raises "Attempt to divide by
zero.", while `|r| < 1e-8` is false, so the claim as stated predicts
`Number(l / r)` there. -/
theorem C5_counterexample_at_boundary :
    Interpreter.binary_op tokSlash (.number 1) (.number (mkRat 1 100000000)) =
      .error (RuntimeError.new tokSlash "Attempt to divide by zero.") ∧
    ¬ (|(mkRat 1 100000000 : ℚ)| < 1 / 100000000) := by
  constructor
  · rfl
  · rw [mkRat_one_1e8, abs_of_pos (by norm_num)]
    exact lt_irrefl _

/-- C5 (amended): for number operands the division errors exactly when
`|r| ≤ 1e-8` (i.e. unless `|r| > 1e-8`), and otherwise yields
`Number(l / r)`; a non-number operand on either side raises a runtime
error. -/
theorem C5_division_zero_guard :
    (∀ (op : Token) (l r : ℚ), op.token_type = .Slash →
      Interpreter.binary_op op (.number l) (.number r) =
        (if 1 / 100000000 < |r| then .ok (.number (l / r))
         else .error (RuntimeError.new op "Attempt to divide by zero."))) ∧
    (∀ (op : Token) (l : LoxObject) (r : LoxObject), op.token_type = .Slash →
      isNumberV l = false →
      Interpreter.binary_op op l r =
        .error (RuntimeError.new op "Left operand not a number.")) ∧
    (∀ (op : Token) (l : ℚ) (r : LoxObject), op.token_type = .Slash →
      isNumberV r = false →
      Interpreter.binary_op op (.number l) r =
        .error (RuntimeError.new op "Right operand not a number.")) := by
  refine ⟨?_, ?_, ?_⟩
  · intro op l r hop
    simp only [Interpreter.binary_op, hop]
    rw [mkRat_one_1e8, f64abs_eq_abs]
    by_cases h : 1 / 100000000 < |r|
    · have hr : r ≠ 0 := by
        intro h0
        rw [h0, abs_zero] at h
        norm_num at h
      rw [if_pos h, if_pos h, f64div_eq l r hr]
    · rw [if_neg h, if_neg h]
  · intro op l r hop hl
    cases l <;> simp_all [Interpreter.binary_op, isNumberV]
  · intro op l r hop hr
    cases r <;> simp_all [Interpreter.binary_op, isNumberV]

/-- Witness for C5 at concrete operands (`1 / 1`, `nil / 1`, `1 / nil`). -/
theorem C5_division_zero_guard_witness :
    (Interpreter.binary_op tokSlash (.number 1) (.number 1) =
      (if (1 : ℚ) / 100000000 < |(1 : ℚ)| then .ok (.number ((1 : ℚ) / 1))
       else .error (RuntimeError.new tokSlash "Attempt to divide by zero."))) ∧
    (Interpreter.binary_op tokSlash .nil (.number 1) =
      .error (RuntimeError.new tokSlash "Left operand not a number.")) ∧
    (Interpreter.binary_op tokSlash (.number 1) .nil =
      .error (RuntimeError.new tokSlash "Right operand not a number.")) :=
  ⟨C5_division_zero_guard.1 tokSlash 1 1 (by rfl),
   C5_division_zero_guard.2.1 tokSlash .nil (.number 1) (by rfl) (by rfl),
   C5_division_zero_guard.2.2 tokSlash 1 .nil (by rfl) (by rfl)⟩

/-! ## C10 — `!=` always raises "Unrecognized binary operator." -/

/-- C10: the binary-operator dispatch has no `BangEqual` arm, so once both
operands have been evaluated — whatever their types — a `!=` comparison
raises the runtime error "Unrecognized binary operator."; hence a
`Binary` node built by the parser's equality production for `!=` never
compares two values. -/
theorem C10_bang_equal_always_errors :
    (∀ (op : Token) (l r : LoxObject), op.token_type = .BangEqual →
      Interpreter.binary_op op l r =
        .error (RuntimeError.new op "Unrecognized binary operator.")) ∧
    (∀ (fuel : Nat) (op : Token) (le re : Expr) (l r : LoxObject)
        (s s₁ s₂ : Interpreter), op.token_type = .BangEqual →
      Interpreter.evaluate fuel le s = some (.ok l, s₁) →
      Interpreter.evaluate fuel re s₁ = some (.ok r, s₂) →
      Interpreter._evaluate (fuel + 1) (.binary le op re) s =
        some (.error (.error (RuntimeError.new op "Unrecognized binary operator.")), s₂)) := by
  constructor
  · intro op l r hop
    simp [Interpreter.binary_op, hop]
  · intro fuel op le re l r s s₁ s₂ hop h1 h2
    simp only [Interpreter._evaluate, h1, h2]
    simp [Interpreter.binary_op, hop]

/-- Witness for C10: `1 != 2` errors. -/
theorem C10_bang_equal_always_errors_witness :
    (Interpreter.binary_op tokBangEq (.number 1) (.number 2) =
      .error (RuntimeError.new tokBangEq "Unrecognized binary operator.")) ∧
    (Interpreter._evaluate 3 (.binary (.literal (.number 1)) tokBangEq
        (.literal (.number 2))) Interpreter.new =
      some (.error (.error (RuntimeError.new tokBangEq "Unrecognized binary operator.")),
        Interpreter.new)) :=
  ⟨C10_bang_equal_always_errors.1 tokBangEq (.number 1) (.number 2) (by rfl),
   C10_bang_equal_always_errors.2 2 tokBangEq (.literal (.number 1))
     (.literal (.number 2)) (.number 1) (.number 2)
     Interpreter.new Interpreter.new Interpreter.new (by rfl) (by rfl) (by rfl)⟩

/-! ## C6 — the scanner panics on an unexpected character -/

/-- C6: on the unexpected character `@` the scanner does not emit a scan
error and continue — it panics (the unexpected-character arm of
`scan_tokens` is `panic!`), so no token stream (and no end-of-file token)
is produced; on input without unexpected characters the stream does end
with the end-of-file token. -/
theorem C6_scanner_panics_on_unexpected_character :
    Scanner.scan 5 "@" = some (.panicked "Unexpected character: \"@\"") ∧
    Scanner.scan 20 "var x" = some (.tokens
      [{ token_type := .Var, lexeme := "var", literal := none, line := 1 },
       { token_type := .Identifier, lexeme := "x", literal := none, line := 1 },
       { token_type := .Eof, lexeme := "", literal := none, line := 1 }] []) := by
  exact ⟨by rfl, by rfl⟩

/-! ## C7 — for-loop desugaring -/

/-- C7: for any initializer `I`, condition `C`, update `U` and body `B`, the
AST built by `Parser::for_stmt` equals the AST of
`{ I; while (C) { B; U; } }` — with the initializer block omitted when `I`
is absent and the condition replaced by the literal `true` when `C` is
absent — and therefore executing the two forms is the same function of the
interpreter state. -/
theorem C7_for_desugars_to_while :
    ∀ (initializer : Option Stmt) (condition : Option Expr) (increment : Expr)
      (body : Stmt),
      Parser.forDesugar initializer condition (some increment) body =
        forDesugarSpec initializer condition increment body ∧
      ∀ (fuel : Nat) (s : Interpreter),
        Interpreter.execute fuel
            (Parser.forDesugar initializer condition (some increment) body) s =
          Interpreter.execute fuel (forDesugarSpec initializer condition increment body) s := by
  intro initializer condition increment body
  cases initializer <;> cases condition <;>
    exact ⟨rfl, fun _ _ => rfl⟩

/-! ## C9 — every exit path of a block restores the previous environment -/

/-- Helper: `execute_block` always hands back the caller's current
environment, whatever the outcome was. -/
theorem execute_block_restores_environment (fuel : Nat) (stmts : List Stmt)
    (env : Nat) (s : Interpreter) (r : Except InterpretResultStatus Unit)
    (s₁ : Interpreter)
    (h : Interpreter.execute_block fuel stmts env s = some (r, s₁)) :
    s₁.environment = s.environment := by
  cases fuel with
  | zero => simp [Interpreter.execute_block] at h
  | succ n =>
    simp only [Interpreter.execute_block] at h
    cases hx : Interpreter.execStmtList n stmts { s with environment := env } with
    | none => rw [hx] at h; simp at h
    | some p =>
      obtain ⟨r₀, s₀⟩ := p
      rw [hx] at h
      simp only [Option.some.injEq, Prod.mk.injEq] at h
      rw [← h.2]

/-- C9: executing a block (and any function body, via `execute_block`)
installs the child environment and restores the previously active
environment on every exit path — normal completion, runtime error, `Break`
or `Return` — so the interpreter's current-environment field is unchanged
by the block as a whole. -/
theorem C9_block_restores_environment :
    (∀ (fuel : Nat) (stmts : List Stmt) (env : Nat) (s : Interpreter)
        (r : Except InterpretResultStatus Unit) (s₁ : Interpreter),
      Interpreter.execute_block fuel stmts env s = some (r, s₁) →
      s₁.environment = s.environment) ∧
    (∀ (fuel : Nat) (stmts : List Stmt) (s : Interpreter)
        (r : Except InterpretResultStatus Unit) (s₁ : Interpreter),
      Interpreter.execute fuel (Stmt.block stmts) s = some (r, s₁) →
      s₁.environment = s.environment) := by
  constructor
  · exact execute_block_restores_environment
  · intro fuel stmts s r s₁ h
    cases fuel with
    | zero => simp [Interpreter.execute] at h
    | succ n =>
      simp only [Interpreter.execute, Environment.as_child_of] at h
      have h₂ := execute_block_restores_environment n stmts _ _ r s₁ h
      exact h₂

/-- Witness for C9: executing `{ var x; }` from the fresh interpreter leaves
the current environment unchanged. -/
theorem C9_block_restores_environment_witness :
    c9After.environment = Interpreter.new.environment :=
  C9_block_restores_environment.2 5 [Stmt.var xTok none] Interpreter.new
    (.ok ()) c9After (by rfl)

/-! ## C2 — control signals unwind exactly to their sinks -/

/-- C2: a `Break` from a while-loop body is swallowed by that loop (the loop
completes normally); a `Return` from the body is re-raised past the loop;
a `Return` reaching a (non-initializer) function call is consumed as the
call's result; and a `Break` or `Return` reaching `interpret` at top level
is converted by `_process_error` into an internal runtime error. -/
theorem C2_control_signals_unwind_to_sinks :
    (∀ (fuel : Nat) (c : Expr) (b : Stmt) (s : Interpreter) (v : LoxObject)
        (s₁ s₂ : Interpreter),
      Interpreter.evaluate fuel c s = some (.ok v, s₁) →
      v.is_truthy = true →
      Interpreter.execute fuel b s₁ = some (.error .brk, s₂) →
      Interpreter.execute (fuel + 1) (Stmt.whileStmt c b) s = some (.ok (), s₂)) ∧
    (∀ (fuel : Nat) (c : Expr) (b : Stmt) (s : Interpreter) (v : LoxObject)
        (s₁ s₂ : Interpreter) (rv : Option LoxObject),
      Interpreter.evaluate fuel c s = some (.ok v, s₁) →
      v.is_truthy = true →
      Interpreter.execute fuel b s₁ = some (.error (.ret rv), s₂) →
      Interpreter.execute (fuel + 1) (Stmt.whileStmt c b) s =
        some (.error (.ret rv), s₂)) ∧
    (∀ (fuel : Nat) (f : LoxFunctionData) (args : List LoxObject)
        (s : Interpreter) (envRef : Nat) (s₁ : Interpreter)
        (rv : Option LoxObject) (s₂ : Interpreter),
      f.is_initializer = false →
      f.callEnv args s = (envRef, s₁) →
      Interpreter.execute_block fuel f.body envRef s₁ =
        some (.error (.ret rv), s₂) →
      LoxFunctionData.call (fuel + 1) f args s = some (.ok rv, s₂)) ∧
    (∀ (fuel : Nat) (stmts : List Stmt) (s s₁ : Interpreter),
      Interpreter.execStmtList fuel stmts s = some (.error .brk, s₁) →
      Interpreter.interpret fuel stmts s =
        some (.error (RuntimeError.with_message
          "A \"break\" statement trickled all the way up to root. Something is horribly wrong."), s₁)) ∧
    (∀ (fuel : Nat) (stmts : List Stmt) (s s₁ : Interpreter)
        (rv : Option LoxObject),
      Interpreter.execStmtList fuel stmts s = some (.error (.ret rv), s₁) →
      Interpreter.interpret fuel stmts s =
        some (.error (RuntimeError.with_message
          "A \"return\" statement trickled all the way up to root. Something is horribly wrong."), s₁)) := by
  refine ⟨?_, ?_, ?_, ?_, ?_⟩
  · intro fuel c b s v s₁ s₂ hc ht hb
    simp only [Interpreter.execute, hc, ht, if_true, hb]
  · intro fuel c b s v s₁ s₂ rv hc ht hb
    simp only [Interpreter.execute, hc, ht, if_true, hb]
  · intro fuel f args s envRef s₁ rv s₂ hinit hce hblock
    cases rv <;> simp only [LoxFunctionData.call, hce, hblock, hinit] <;> rfl
  · intro fuel stmts s s₁ h
    simp only [Interpreter.interpret, h]
    rfl
  · intro fuel stmts s s₁ rv h
    simp only [Interpreter.interpret, h]
    rfl

/-- Witness for C2: `while (true) break;` completes normally; a `return;`
in the body escapes the loop; a bare `return;` is consumed by a function
call; a top-level `break;` / `return;` becomes the internal error. -/
theorem C2_control_signals_unwind_to_sinks_witness :
    (Interpreter.execute 4 (.whileStmt (.literal .tru) (.breakStmt tokBreak))
        Interpreter.new = some (.ok (), Interpreter.new)) ∧
    (Interpreter.execute 4 (.whileStmt (.literal .tru) (.returnStmt tokReturn none))
        Interpreter.new = some (.error (.ret none), Interpreter.new)) ∧
    (LoxFunctionData.call 4 c2FunReturn [] Interpreter.new =
      some (.ok none, c2CallState)) ∧
    (Interpreter.interpret 2 [.breakStmt tokBreak] Interpreter.new =
      some (.error (RuntimeError.with_message
        "A \"break\" statement trickled all the way up to root. Something is horribly wrong."),
        Interpreter.new)) ∧
    (Interpreter.interpret 2 [.returnStmt tokReturn none] Interpreter.new =
      some (.error (RuntimeError.with_message
        "A \"return\" statement trickled all the way up to root. Something is horribly wrong."),
        Interpreter.new)) :=
  ⟨C2_control_signals_unwind_to_sinks.1 3 (.literal .tru) (.breakStmt tokBreak)
      Interpreter.new (.boolean true) Interpreter.new Interpreter.new
      (by rfl) (by rfl) (by rfl),
   C2_control_signals_unwind_to_sinks.2.1 3 (.literal .tru)
      (.returnStmt tokReturn none) Interpreter.new (.boolean true)
      Interpreter.new Interpreter.new none (by rfl) (by rfl) (by rfl),
   C2_control_signals_unwind_to_sinks.2.2.1 3 c2FunReturn [] Interpreter.new
      1 c2CallState none c2CallState (by rfl) (by rfl) (by rfl),
   C2_control_signals_unwind_to_sinks.2.2.2.1 2 [.breakStmt tokBreak]
      Interpreter.new Interpreter.new (by rfl),
   C2_control_signals_unwind_to_sinks.2.2.2.2 2 [.returnStmt tokReturn none]
      Interpreter.new Interpreter.new none (by rfl)⟩

/-! ## C1 — reading an `Undefined`-valued variable

`Environment::get`/`get_at` return the stored value without inspecting it,
and `look_up_variable` passes it through, so the `Undefined` marker written
by `var x;` escapes as the result of evaluating the variable — no runtime
error is raised, contrary to the claim. -/

/-- C1 counterexample: after `var x;`, evaluating the variable `x` yields
`Ok(Undefined)` (not a runtime error), and the full program
`var x; print x;` completes normally, printing `<undefined>`. -/
theorem C1_undefined_read_counterexample :
    Interpreter.execute 5 (Stmt.var xTok none) Interpreter.new =
      some (.ok (), c1Mid) ∧
    Interpreter._evaluate 5 (Expr.varExpr xTok) c1Mid =
      some (.ok .undefined, c1Mid) ∧
    Interpreter.interpret 10 c1Program Interpreter.new = some (.ok (), c1After) ∧
    c1After.output = ["<undefined>"] :=
  ⟨by rfl, by rfl, by rfl, by rfl⟩

/-- C1 (amended): a `var` statement without initializer binds the name to
`Undefined`, and reading a variable whose binding holds `Undefined` yields
the `Undefined` value as the expression result — the interpreter raises no
runtime error and the value escapes. -/
theorem C1_undefined_read_yields_undefined :
    (∀ (gas : Nat) (envs : List Frame) (ref : Nat) (name : Token) (fr : Frame),
      envs[ref]? = some fr →
      alistGet fr.values name.lexeme = some LoxObject.undefined →
      Environment.get (gas + 1) envs ref name = .ok .undefined) ∧
    (∀ (fuel : Nat) (s : Interpreter) (name : Token),
      Interpreter.look_up_variable s name (.varExpr name) = .ok .undefined →
      Interpreter._evaluate (fuel + 1) (.varExpr name) s =
        some (.ok .undefined, s)) ∧
    (∀ (fuel : Nat) (s : Interpreter) (name : Token)
        (out : Except InterpretResultStatus Unit) (s₁ : Interpreter),
      Interpreter.execute (fuel + 1) (Stmt.var name none) s = some (out, s₁) →
      out = .ok () ∧
      s₁ = { s with
               envs := Environment.define s.envs s.environment name.lexeme .undefined }) := by
  refine ⟨?_, ?_, ?_⟩
  · intro gas envs ref name fr h1 h2
    simp only [Environment.get, h1, h2]
  · intro fuel s name h
    simp only [Interpreter._evaluate, h]
  · intro fuel s name out s₁ h
    simp only [Interpreter.execute, Option.some.injEq, Prod.mk.injEq] at h
    exact ⟨h.1.symm, h.2.symm⟩

/-- Witness for C1 (amended) on the state produced by `var x;`. -/
theorem C1_undefined_read_yields_undefined_witness :
    (Environment.get 1 c1Mid.envs 0 xTok = .ok .undefined) ∧
    (Interpreter._evaluate 7 (.varExpr xTok) c1Mid =
      some (.ok .undefined, c1Mid)) ∧
    ((Except.ok () : Except InterpretResultStatus Unit) = .ok () ∧
      c1Mid = { Interpreter.new with
                  envs := Environment.define Interpreter.new.envs
                    Interpreter.new.environment xTok.lexeme .undefined }) :=
  ⟨C1_undefined_read_yields_undefined.1 0 c1Mid.envs 0 xTok
      { enclosing := none,
        values := [("clock", LoxObject.callable .nativeClock),
                   ("x", LoxObject.undefined)] } (by rfl) (by rfl),
   C1_undefined_read_yields_undefined.2.1 6 c1Mid xTok (by rfl),
   C1_undefined_read_yields_undefined.2.2 4 Interpreter.new xTok (.ok ())
     c1Mid (by rfl)⟩

/-! ## C3 — initializer calls return `this` -/

/-- C3: for an `is_initializer` function, both normal completion of the body
and a bare `return;` (`Return(None)`) make `LoxFunction::call` return the
value bound to `this` at distance 0 in the function's closure; a
non-initializer call returns `None` (→ `Nil` at the call site) on normal
completion and `v` on `Return(v)`; and the resolver rejects a
value-bearing `return` inside an initializer with "Cannot return a value
from class initializer method." -/
theorem C3_initializer_returns_this :
    (∀ (fuel : Nat) (f : LoxFunctionData) (args : List LoxObject)
        (s : Interpreter) (envRef : Nat) (s₁ s₂ : Interpreter) (v : LoxObject),
      f.is_initializer = true →
      f.callEnv args s = (envRef, s₁) →
      Interpreter.execute_block fuel f.body envRef s₁ = some (.ok (), s₂) →
      Environment.get_at s₂.envs f.closure 0 "this" = .ok v →
      LoxFunctionData.call (fuel + 1) f args s = some (.ok (some v), s₂)) ∧
    (∀ (fuel : Nat) (f : LoxFunctionData) (args : List LoxObject)
        (s : Interpreter) (envRef : Nat) (s₁ s₂ : Interpreter) (v : LoxObject),
      f.is_initializer = true →
      f.callEnv args s = (envRef, s₁) →
      Interpreter.execute_block fuel f.body envRef s₁ =
        some (.error (.ret none), s₂) →
      Environment.get_at s₂.envs f.closure 0 "this" = .ok v →
      LoxFunctionData.call (fuel + 1) f args s = some (.ok (some v), s₂)) ∧
    (∀ (fuel : Nat) (f : LoxFunctionData) (args : List LoxObject)
        (s : Interpreter) (envRef : Nat) (s₁ s₂ : Interpreter),
      f.is_initializer = false →
      f.callEnv args s = (envRef, s₁) →
      Interpreter.execute_block fuel f.body envRef s₁ = some (.ok (), s₂) →
      LoxFunctionData.call (fuel + 1) f args s = some (.ok none, s₂)) ∧
    (∀ (fuel : Nat) (f : LoxFunctionData) (args : List LoxObject)
        (s : Interpreter) (envRef : Nat) (s₁ s₂ : Interpreter)
        (rv : Option LoxObject),
      f.is_initializer = false →
      f.callEnv args s = (envRef, s₁) →
      Interpreter.execute_block fuel f.body envRef s₁ =
        some (.error (.ret rv), s₂) →
      LoxFunctionData.call (fuel + 1) f args s = some (.ok rv, s₂)) ∧
    (∀ (fuel : Nat) (r : Resolver) (keyword : Token) (v : Expr),
      r.current_function = .Initializer →
      Resolver.resolveStmt (fuel + 1) (.returnStmt keyword (some v)) r =
        some (.error (ResolveError.new (some keyword)
          "Cannot return a value from class initializer method."))) := by
  refine ⟨?_, ?_, ?_, ?_, ?_⟩
  · intro fuel f args s envRef s₁ s₂ v hinit hce hblock hthis
    simp only [LoxFunctionData.call, hce, hblock, hinit, hthis, if_true]
  · intro fuel f args s envRef s₁ s₂ v hinit hce hblock hthis
    simp only [LoxFunctionData.call, hce, hblock, hinit, hthis, if_true]
  · intro fuel f args s envRef s₁ s₂ hinit hce hblock
    simp only [LoxFunctionData.call, hce, hblock, hinit]
    rfl
  · intro fuel f args s envRef s₁ s₂ rv hinit hce hblock
    cases rv <;> simp only [LoxFunctionData.call, hce, hblock, hinit] <;> rfl
  · intro fuel r keyword v hcf
    simp only [Resolver.resolveStmt, hcf]

/-- Witness for C3: an initializer with empty body, one with a bare
`return;`, a plain function in both modes, and the resolver rejection. -/
theorem C3_initializer_returns_this_witness :
    (LoxFunctionData.call 4 c3InitEmpty [] c3State =
      some (.ok (some (.instanceObj 0)), c3CallState)) ∧
    (LoxFunctionData.call 4 c3InitReturn [] c3State =
      some (.ok (some (.instanceObj 0)), c3CallState)) ∧
    (LoxFunctionData.call 4 c3FunEmpty [] Interpreter.new =
      some (.ok none, c2CallState)) ∧
    (LoxFunctionData.call 4 c2FunReturn [] Interpreter.new =
      some (.ok none, c2CallState)) ∧
    (Resolver.resolveStmt 3 (.returnStmt tokReturn (some (.literal (.number 1))))
        c3Resolver =
      some (.error (ResolveError.new (some tokReturn)
        "Cannot return a value from class initializer method."))) :=
  ⟨C3_initializer_returns_this.1 3 c3InitEmpty [] c3State 1 c3CallState
      c3CallState (.instanceObj 0) (by rfl) (by rfl) (by rfl) (by rfl),
   C3_initializer_returns_this.2.1 3 c3InitReturn [] c3State 1 c3CallState
      c3CallState (.instanceObj 0) (by rfl) (by rfl) (by rfl) (by rfl),
   C3_initializer_returns_this.2.2.1 3 c3FunEmpty [] Interpreter.new 1
      c2CallState c2CallState (by rfl) (by rfl) (by rfl),
   C3_initializer_returns_this.2.2.2.1 3 c2FunReturn [] Interpreter.new 1
      c2CallState c2CallState none (by rfl) (by rfl) (by rfl),
   C3_initializer_returns_this.2.2.2.2 2 c3Resolver tokReturn
      (.literal (.number 1)) (by rfl)⟩

/-! ## C8 — end_scope rejects defined-but-never-accessed variables -/

/-- C8: popping a non-global scope fails with the "defined but never
accessed" resolve error exactly when some variable of that scope was never
read; concretely, `fun f() { var c = 3; }` is rejected while `var c = 3;`
alone at global scope resolves successfully (the global scope is never a
stack scope, so it is never checked). -/
theorem C8_unused_local_rejected :
    (∀ (r : Resolver) (scope : List (String × RVariable))
        (rest : List (List (String × RVariable))),
      r.scopes = scope :: rest →
      ((∃ e, Resolver.end_scope r = .error e) ↔
        ∃ p ∈ scope, p.2.is_accessed = false)) ∧
    (Resolver.resolve 10 c8FunProgram Resolver.new =
      some (.error (ResolveError.new (some cTok)
        "Variable \"c\" defined but never accessed"))) ∧
    (Resolver.resolve 10 c8GlobalProgram Resolver.new =
      some (.ok Resolver.new)) := by
  refine ⟨?_, by rfl, by rfl⟩
  intro r scope rest hs
  cases hfind : scope.find? (fun p => !p.2.is_accessed) with
  | none =>
    have hok : Resolver.end_scope r = .ok { r with scopes := rest } := by
      unfold Resolver.end_scope
      rw [hs]
      simp only [hfind]
    constructor
    · rintro ⟨e, he⟩
      rw [hok] at he
      simp at he
    · rintro ⟨p, hmem, hacc⟩
      have hnone := List.find?_eq_none.mp hfind p hmem
      simp [hacc] at hnone
  | some p =>
    have herr : Resolver.end_scope r =
        .error (ResolveError.new p.2.token
          ("Variable \"" ++
           (match p.2.token with
            | some t => t.lexeme
            | none => "<unknown>") ++
           "\" defined but never accessed")) := by
      unfold Resolver.end_scope
      rw [hs]
      simp only [hfind]
    constructor
    · intro _
      refine ⟨p, List.mem_of_find?_eq_some hfind, ?_⟩
      have hp := List.find?_some hfind
      simpa using hp
    · intro _
      exact ⟨_, herr⟩

/-- Witness for C8's scope-popping characterization on a concrete resolver
state with an unaccessed `c`. -/
theorem C8_unused_local_rejected_witness :
    ∃ e, Resolver.end_scope c8Scope = .error e :=
  (C8_unused_local_rejected.1 c8Scope
      [("c", { state := .Defined, token := some cTok })] [] (by rfl)).mpr
    ⟨("c", { state := .Defined, token := some cTok }), by simp, by rfl⟩

end RLox
